import Mathlib

/-
  Verification development for the massa-dungeons repository
  (src/smart-contracts/assembly/contracts/game.ts).

  The contract file contains two logical contracts: a battle game
  (characters, battles, turns, wildcards) and a prediction market
  (parimutuel single pools, parlay multipools).  Both are embedded
  shallowly below: persistent storage becomes typed maps
  `String → Option _` plus a counter map `String → Nat`, machine
  integers become `Nat` with explicit `% 2^w` at the arithmetic sites
  where the source can wrap within a single operation (the u128
  multiplications and the u128→u64 truncations of the betting math),
  and every exported entry point becomes a total Lean function that
  returns the abort message of the failing `assert`, the storage state
  reached at that point, and the ordered list of externally visible
  effects (storage writes, token balance checks, token transfers).

  Monotone u64 quantities that can only overflow after astronomically
  many calls (hit points, xp, counters) are idealised as unbounded Nat;
  the reentrancy lock (set on entry, deleted on exit of every operation)
  is not part of the inter-operation state because a completed operation
  always clears it.
-/

namespace MassaDungeons

/-! ### Shared constants (source lines 27-85) -/

def U32 : Nat := 2 ^ 32
def U64 : Nat := 2 ^ 64
def U128 : Nat := 2 ^ 128

-- fixed point scale for odds (6 decimals)
def ODDS_SCALE : Nat := 1000000
def BASIS_POINTS : Nat := 10000
def DEFAULT_HOUSE_EDGE_BPS : Nat := 500
def MAX_ENERGY : Nat := 100
def ENERGY_PER_TURN : Nat := 20

-- status effect bitmask values
def STATUS_POISON : Nat := 1
def STATUS_STUN : Nat := 2
def STATUS_SHIELD : Nat := 4
def STATUS_RAGE : Nat := 8
def STATUS_BURN : Nat := 16

/-- wrapping u128 multiplication (as-bignum u128 `*`) -/
def u128mul (a b : Nat) : Nat := (a * b) % U128

/-- wrapping u128 addition -/
def u128add (a b : Nat) : Nat := (a + b) % U128

/-- wrapping u64 addition -/
def u64add (a b : Nat) : Nat := (a + b) % U64

/-- u128 → u64 truncation (`u128.toU64`) -/
def toU64 (a : Nat) : Nat := a % U64

/-! ### Prediction market data model (source lines 1644-1904) -/

/-- `SinglePool` record, source lines 1644-1728. u128 fields are Nat. -/
structure SinglePool where
  poolId : String
  battleId : String
  token : String
  closeTs : Nat
  totalPool : Nat
  outcomeABets : Nat
  outcomeBBets : Nat
  outcomeAOddsFP : Nat
  outcomeBOddsFP : Nat
  houseEdgeBps : Nat
  isClosed : Bool
  isSettled : Bool
  winningOutcome : Int
  createdAt : Nat
  maxPoolSize : Nat
  minBetSize : Nat
  maxBetSize : Nat
deriving DecidableEq

/-- `SingleBet` record, source lines 1730-1769. -/
structure SingleBet where
  bettor : String
  poolId : String
  amount : Nat
  outcome : Int
  isClaimed : Bool
  placedAt : Nat
deriving DecidableEq

/-- `Multipool` record, source lines 1772-1819. -/
structure Multipool where
  multipoolId : String
  token : String
  totalPool : Nat
  totalWeightFP : Nat
  totalWinnerWeightFP : Nat
  isFinalized : Bool
  houseEdgeBps : Nat
  createdAt : Nat
deriving DecidableEq

/-- `BetslipSelection` record, source lines 1821-1842. -/
structure BetslipSelection where
  poolId : String
  outcome : Int
  oddsFP : Nat
deriving DecidableEq

/-- `Betslip` record, source lines 1844-1904 (selections kept as a list
    instead of the pipe separated string encoding). -/
structure Betslip where
  betslipId : String
  bettor : String
  multipoolId : String
  amount : Nat
  selections : List BetslipSelection
  combinedOddsFP : Nat
  weightFP : Nat
  isWinner : Bool
  isClaimed : Bool
  isAccounted : Bool
  placedAt : Nat
deriving DecidableEq

/-- Externally visible effects of a prediction operation, in program
    order: storage writes, token balance checks and token transfers. -/
inductive Effect where
  | storePool (poolId : String) (pool : SinglePool)
  | storeBet (poolId bettor : String) (bet : SingleBet)
  | storeMpool (multipoolId : String) (mp : Multipool)
  | storeBetslip (betslipId : String) (slip : Betslip)
  | storeCounter (key : String) (value : Nat)
  | balanceCheck (addr : String)
  | tokenTransfer (toAddr : String) (amount : Nat)
  | tokenTransferFrom (srcAddr dstAddr : String) (amount : Nat)
deriving DecidableEq

/-- Prediction contract storage: one byte-keyed store split by prefix
    (`spool:`, `sbet:<poolId>:<bettor>`, `mpool:`, `betslip:`, counter
    keys, flag keys such as `admin:<addr>` and `auth_settler:<addr>`). -/
structure PredState where
  pools : String → Option SinglePool
  bets : String → String → Option SingleBet
  mpools : String → Option Multipool
  betslips : String → Option Betslip
  counters : String → Nat
  flags : String → Bool
  paused : Bool

/-- Call context: caller identity, contract address, timestamp, and the
    observable state of the external ERC20 collaborator. -/
structure Ctx where
  caller : String
  callee : String
  timestamp : Nat
  allowance : String → String → Nat
  balanceOf : String → Nat

/-- Result of one prediction operation: abort message of the failing
    assert (none on success), storage state reached, effect trace. -/
structure OpResult where
  err : Option String
  state : PredState
  trace : List Effect

def updPool (m : String → Option SinglePool) (k : String) (v : SinglePool) :
    String → Option SinglePool :=
  fun x => if x = k then some v else m x

def updBet (m : String → String → Option SingleBet) (p b : String) (v : SingleBet) :
    String → String → Option SingleBet :=
  fun x y => if x = p ∧ y = b then some v else m x y

def updMpool (m : String → Option Multipool) (k : String) (v : Multipool) :
    String → Option Multipool :=
  fun x => if x = k then some v else m x

def updSlip (m : String → Option Betslip) (k : String) (v : Betslip) :
    String → Option Betslip :=
  fun x => if x = k then some v else m x

def updCounter (m : String → Nat) (k : String) (v : Nat) : String → Nat :=
  fun x => if x = k then v else m x

/-- `streakKey`, source line 555: `streak:<address>`. -/
def streakKey (addr : String) : String := "streak:" ++ addr

/-- house edge amount of a pool, as computed at source lines 2152 and 2242:
    `totalPool * houseEdgeBps / BASIS_POINTS` in u128. -/
def houseAmountOf (p : SinglePool) : Nat :=
  u128mul p.totalPool p.houseEdgeBps / BASIS_POINTS

/-- payout pool of a pool, source lines 2153 and 2243: `totalPool - houseAmount`. -/
def payoutPoolOf (p : SinglePool) : Nat :=
  p.totalPool - houseAmountOf p

/-- winning side total of a settled pool, source line 2244. -/
def winnerTotalOf (p : SinglePool) : Nat :=
  if p.winningOutcome = 0 then p.outcomeABets else p.outcomeBBets

/-- u128 payout of one winning bet, source line 2247:
    `payoutPool * bet.amount / winnerTotal`. -/
def singleBetPayout (p : SinglePool) (betAmount : Nat) : Nat :=
  u128mul (payoutPoolOf p) betAmount / winnerTotalOf p

/-! ### prediction_createSinglePool, source lines 2040-2072 -/

def prediction_createSinglePool (st : PredState) (ctx : Ctx)
    (poolId battleId tokenAddr : String) (closeTs : Nat) : OpResult :=
  if st.paused then ⟨some ("Contract paused"), st, []⟩ else
  match st.pools poolId with
  | some _ => ⟨some ("pool exists"), st, []⟩
  | none =>
    let p : SinglePool :=
      { poolId := poolId, battleId := battleId, token := tokenAddr,
        closeTs := closeTs, totalPool := 0, outcomeABets := 0,
        outcomeBBets := 0, outcomeAOddsFP := 0, outcomeBOddsFP := 0,
        houseEdgeBps := DEFAULT_HOUSE_EDGE_BPS, isClosed := false,
        isSettled := false, winningOutcome := -1,
        createdAt := ctx.timestamp, maxPoolSize := 0, minBetSize := 1,
        maxBetSize := 0 }
    ⟨none,
     { st with pools := updPool st.pools poolId p,
               counters := updCounter st.counters ("single_pool_count")
                 (st.counters ("single_pool_count") + 1) },
     [Effect.storePool poolId p,
      Effect.storeCounter ("single_pool_count")
        (st.counters ("single_pool_count") + 1)]⟩

/-! ### prediction_placeSingleBet, source lines 2077-2132 -/

def prediction_placeSingleBet (st : PredState) (ctx : Ctx)
    (poolId : String) (outcome : Int) (amount : Nat) : OpResult :=
  if st.paused then ⟨some ("Contract paused"), st, []⟩ else
  match st.pools poolId with
  | none => ⟨some ("pool missing"), st, []⟩
  | some pool =>
    if pool.isClosed then ⟨some ("pool closed"), st, []⟩ else
    if ¬ (ctx.timestamp < pool.closeTs) then ⟨some ("betting closed"), st, []⟩ else
    if ¬ (pool.minBetSize ≤ amount) then ⟨some ("bet below minimum"), st, []⟩ else
    if 0 < pool.maxBetSize ∧ ¬ (amount ≤ pool.maxBetSize) then
      ⟨some ("bet above maximum"), st, []⟩ else
    let newTotal := u128add pool.totalPool amount
    if 0 < pool.maxPoolSize ∧ ¬ (toU64 newTotal ≤ pool.maxPoolSize) then
      ⟨some ("pool cap reached"), st, []⟩ else
    if ¬ (amount ≤ ctx.allowance ctx.caller ctx.callee) then
      ⟨some ("allowance low"), st, []⟩ else
    if ¬ (amount ≤ ctx.balanceOf ctx.caller) then
      ⟨some ("insufficient token balance"), st, [Effect.balanceCheck ctx.caller]⟩ else
    let pool' :=
      if outcome = 0 then
        { pool with totalPool := newTotal,
                    outcomeABets := u128add pool.outcomeABets amount }
      else
        { pool with totalPool := newTotal,
                    outcomeBBets := u128add pool.outcomeBBets amount }
    let bet : SingleBet :=
      { bettor := ctx.caller, poolId := poolId, amount := amount,
        outcome := outcome, isClaimed := false, placedAt := ctx.timestamp }
    ⟨none,
     { st with pools := updPool st.pools poolId pool',
               bets := updBet st.bets poolId ctx.caller bet,
               counters := updCounter st.counters ("total_bets_placed")
                 (st.counters ("total_bets_placed") + 1) },
     [Effect.balanceCheck ctx.caller,
      Effect.tokenTransferFrom ctx.caller ctx.callee amount,
      Effect.storePool poolId pool',
      Effect.storeBet poolId ctx.caller bet,
      Effect.storeCounter ("total_bets_placed")
        (st.counters ("total_bets_placed") + 1)]⟩

/-! ### prediction_closeSinglePool, source lines 2135-2168 -/

def prediction_closeSinglePool (st : PredState) (ctx : Ctx)
    (poolId : String) : OpResult :=
  if st.paused then ⟨some ("Contract paused"), st, []⟩ else
  match st.pools poolId with
  | none => ⟨some ("pool not found"), st, []⟩
  | some pool =>
    if pool.isClosed then ⟨some ("already closed"), st, []⟩ else
    if ¬ (pool.closeTs ≤ ctx.timestamp) then ⟨some ("too early to close"), st, []⟩ else
    let p1 := { pool with isClosed := true }
    let p2 :=
      if 0 < pool.totalPool then
        let payoutPool := pool.totalPool - u128mul pool.totalPool pool.houseEdgeBps / BASIS_POINTS
        let pa :=
          if 0 < pool.outcomeABets then
            { p1 with outcomeAOddsFP := u128mul payoutPool ODDS_SCALE / pool.outcomeABets }
          else p1
        if 0 < pool.outcomeBBets then
          { pa with outcomeBOddsFP := u128mul payoutPool ODDS_SCALE / pool.outcomeBBets }
        else pa
      else p1
    ⟨none, { st with pools := updPool st.pools poolId p2 },
     [Effect.storePool poolId p2]⟩

/-! ### prediction_settleSinglePool, source lines 2176-2199 -/

def prediction_settleSinglePool (st : PredState) (ctx : Ctx)
    (poolId : String) (winningOutcome : Int) : OpResult :=
  if st.paused then ⟨some ("Contract paused"), st, []⟩ else
  match st.pools poolId with
  | none => ⟨some ("pool missing"), st, []⟩
  | some pool =>
    if ¬ pool.isClosed then ⟨some ("pool not closed"), st, []⟩ else
    if pool.isSettled then ⟨some ("already settled"), st, []⟩ else
    if ¬ st.flags ("auth_settler:" ++ ctx.caller) then
      ⟨some ("unauthorized settler"), st, []⟩ else
    let p' := { pool with isSettled := true, winningOutcome := winningOutcome }
    ⟨none, { st with pools := updPool st.pools poolId p' },
     [Effect.storePool poolId p']⟩

/-! ### prediction_claimSingleBet, source lines 2202-2283 -/

def prediction_claimSingleBet (st : PredState) (ctx : Ctx)
    (poolId bettor : String) : OpResult :=
  if st.paused then ⟨some ("Contract paused"), st, []⟩ else
  match st.pools poolId with
  | none => ⟨some ("pool missing"), st, []⟩
  | some pool =>
    if ¬ pool.isSettled then ⟨some ("pool not settled"), st, []⟩ else
    match st.bets poolId bettor with
    | none => ⟨some ("bet not found"), st, []⟩
    | some bet =>
      if bet.isClaimed then ⟨some ("already claimed"), st, []⟩ else
      let currentStreak := st.counters (streakKey bettor)
      if bet.outcome ≠ pool.winningOutcome then
        -- losing bet: mark claimed, count, reset streak (lines 2223-2233)
        let bet' := { bet with isClaimed := true }
        ⟨none,
         { st with bets := updBet st.bets poolId bettor bet',
                   counters := updCounter
                     (updCounter st.counters ("total_bets_claimed")
                       (st.counters ("total_bets_claimed") + 1))
                     (streakKey bettor) 0 },
         [Effect.storeBet poolId bettor bet',
          Effect.storeCounter ("total_bets_claimed")
            (st.counters ("total_bets_claimed") + 1),
          Effect.storeCounter (streakKey bettor) 0]⟩
      else
        -- winning bet (lines 2236-2282)
        let newStreak := currentStreak + 1
        let c1 := updCounter st.counters (streakKey bettor) newStreak
        let houseAmount := houseAmountOf pool
        let winnerTotal := winnerTotalOf pool
        if ¬ (0 < winnerTotal) then
          ⟨some ("no winners in pool"),
           { st with counters := c1 },
           [Effect.storeCounter (streakKey bettor) newStreak]⟩ else
        let payoutU := singleBetPayout pool bet.amount
        let payoutU64 := toU64 payoutU
        let bet' := { bet with isClaimed := true }
        let st1 : PredState :=
          { st with counters := c1, bets := updBet st.bets poolId bettor bet' }
        let tr1 : List Effect :=
          [Effect.storeCounter (streakKey bettor) newStreak,
           Effect.storeBet poolId bettor bet',
           Effect.balanceCheck ctx.callee]
        if ¬ (payoutU64 ≤ ctx.balanceOf ctx.callee) then
          ⟨some ("contract insufficient funds"), st1, tr1⟩ else
        let c2 := updCounter c1 ("total_bets_claimed") (c1 ("total_bets_claimed") + 1)
        let bonusPercent := if newStreak < 5 then (newStreak - 1) * 5 else 25
        let streakBonus := if 2 ≤ newStreak then (payoutU64 * bonusPercent) % U64 / 100 else 0
        let bonusTrace : List Effect :=
          if 2 ≤ newStreak ∧ 0 < streakBonus then [Effect.tokenTransfer bettor streakBonus] else []
        let houseAmountU64 := toU64 houseAmount
        let c3 :=
          if 0 < houseAmountU64 then
            updCounter c2 ("treasury_balance")
              (u64add (c2 ("treasury_balance")) houseAmountU64)
          else c2
        let treasuryTrace : List Effect :=
          if 0 < houseAmountU64 then
            [Effect.storeCounter ("treasury_balance")
              (u64add (c2 ("treasury_balance")) houseAmountU64)]
          else []
        ⟨none,
         { st1 with counters := c3 },
         tr1 ++ [Effect.tokenTransfer bettor payoutU64,
                 Effect.storeCounter ("total_bets_claimed") (c1 ("total_bets_claimed") + 1)]
             ++ bonusTrace ++ treasuryTrace⟩

/-! ### prediction_createMultipool, source lines 2356-2379 -/

def prediction_createMultipool (st : PredState) (ctx : Ctx)
    (multipoolId tokenAddr : String) : OpResult :=
  if st.paused then ⟨some ("Contract paused"), st, []⟩ else
  match st.mpools multipoolId with
  | some _ => ⟨some ("multipool exists"), st, []⟩
  | none =>
    let mp : Multipool :=
      { multipoolId := multipoolId, token := tokenAddr, totalPool := 0,
        totalWeightFP := 0, totalWinnerWeightFP := 0, isFinalized := false,
        houseEdgeBps := DEFAULT_HOUSE_EDGE_BPS, createdAt := ctx.timestamp }
    ⟨none,
     { st with mpools := updMpool st.mpools multipoolId mp,
               counters := updCounter st.counters ("multipool_count")
                 (st.counters ("multipool_count") + 1) },
     [Effect.storeMpool multipoolId mp,
      Effect.storeCounter ("multipool_count")
        (st.counters ("multipool_count") + 1)]⟩

/-! ### prediction_placeMultibet, source lines 2382-2456 -/

/-- The selection parsing loop of `prediction_placeMultibet` (source
    lines 2395-2417): resolves each (poolId, outcome) pair against the
    closed pool odds, accumulating the combined fixed point odds. -/
def parseSelections (st : PredState) (l : List (String × Int)) (acc : Nat) :
    Except String (Nat × List BetslipSelection) :=
  match l with
  | [] => Except.ok (acc, [])
  | (poolId, outcome) :: rest =>
    match st.pools poolId with
    | none => Except.error ("pool missing")
    | some pool =>
      if ¬ pool.isClosed then Except.error ("pool not closed") else
      let oddsFP := if outcome = 0 then pool.outcomeAOddsFP else pool.outcomeBOddsFP
      if ¬ (0 < oddsFP) then Except.error ("invalid odds") else
      let acc' := u128mul acc oddsFP / ODDS_SCALE
      match parseSelections st rest acc' with
      | Except.error e => Except.error e
      | Except.ok (c, sels) =>
        Except.ok (c, { poolId := poolId, outcome := outcome, oddsFP := oddsFP } :: sels)

def prediction_placeMultibet (st : PredState) (ctx : Ctx)
    (betslipId multipoolId : String) (amount : Nat)
    (selIn : List (String × Int)) : OpResult :=
  if st.paused then ⟨some ("Contract paused"), st, []⟩ else
  match parseSelections st selIn ODDS_SCALE with
  | Except.error e => ⟨some e, st, []⟩
  | Except.ok (combinedOddsFP, selections) =>
    match st.mpools multipoolId with
    | none => ⟨some ("multipool missing"), st, []⟩
    | some mp =>
      if ¬ (amount ≤ ctx.allowance ctx.caller ctx.callee) then
        ⟨some ("allowance low"), st, []⟩ else
      if ¬ (amount ≤ ctx.balanceOf ctx.caller) then
        ⟨some ("insufficient balance"), st, [Effect.balanceCheck ctx.caller]⟩ else
      let slip : Betslip :=
        { betslipId := betslipId, bettor := ctx.caller,
          multipoolId := multipoolId, amount := amount,
          selections := selections, combinedOddsFP := combinedOddsFP,
          weightFP := u128mul amount combinedOddsFP / ODDS_SCALE,
          isWinner := false, isClaimed := false, isAccounted := false,
          placedAt := ctx.timestamp }
      let mp' := { mp with totalPool := u128add mp.totalPool amount,
                           totalWeightFP := u128add mp.totalWeightFP slip.weightFP }
      ⟨none,
       { st with mpools := updMpool st.mpools multipoolId mp',
                 betslips := updSlip st.betslips betslipId slip,
                 counters := updCounter st.counters ("total_bets_placed")
                   (st.counters ("total_bets_placed") + 1) },
       [Effect.balanceCheck ctx.caller,
        Effect.tokenTransferFrom ctx.caller ctx.callee amount,
        Effect.storeMpool multipoolId mp',
        Effect.storeBetslip betslipId slip,
        Effect.storeCounter ("total_bets_placed")
          (st.counters ("total_bets_placed") + 1)]⟩

/-! ### prediction_checkBetslipWinner, source lines 2459-2498 -/

/-- The selection checking loop (source lines 2470-2482): every visited
    pool must exist and be settled; the loop stops at the first mismatch
    (`break`), leaving later selections unvisited. -/
def checkSelections (st : PredState) (l : List BetslipSelection) :
    Except String Bool :=
  match l with
  | [] => Except.ok true
  | sel :: rest =>
    match st.pools sel.poolId with
    | none => Except.error ("pool missing")
    | some pool =>
      if ¬ pool.isSettled then Except.error ("pool not settled") else
      if pool.winningOutcome ≠ sel.outcome then Except.ok false else
      checkSelections st rest

def prediction_checkBetslipWinner (st : PredState) (ctx : Ctx)
    (betslipId : String) : OpResult :=
  if st.paused then ⟨some ("Contract paused"), st, []⟩ else
  match st.betslips betslipId with
  | none => ⟨some ("betslip missing"), st, []⟩
  | some slip =>
    if slip.isAccounted then ⟨some ("already accounted"), st, []⟩ else
    match checkSelections st slip.selections with
    | Except.error e => ⟨some e, st, []⟩
    | Except.ok isWinner =>
      let slip' := { slip with isWinner := isWinner, isAccounted := true }
      if isWinner then
        match st.mpools slip.multipoolId with
        | none => ⟨some ("multipool missing"), st, []⟩
        | some mp =>
          let mp' := { mp with totalWinnerWeightFP := u128add mp.totalWinnerWeightFP slip.weightFP }
          ⟨none,
           { st with mpools := updMpool st.mpools slip.multipoolId mp',
                     betslips := updSlip st.betslips betslipId slip' },
           [Effect.storeMpool slip.multipoolId mp',
            Effect.storeBetslip betslipId slip']⟩
      else
        ⟨none, { st with betslips := updSlip st.betslips betslipId slip' },
         [Effect.storeBetslip betslipId slip']⟩

/-! ### prediction_finalizeMultipool, source lines 2501-2516 -/

def prediction_finalizeMultipool (st : PredState) (ctx : Ctx)
    (multipoolId : String) : OpResult :=
  if st.paused then ⟨some ("Contract paused"), st, []⟩ else
  if ¬ st.flags ("admin:" ++ ctx.caller) then ⟨some ("Access denied"), st, []⟩ else
  match st.mpools multipoolId with
  | none => ⟨some ("multipool missing"), st, []⟩
  | some mp =>
    if mp.isFinalized then ⟨some ("already finalized"), st, []⟩ else
    let mp' := { mp with isFinalized := true }
    ⟨none, { st with mpools := updMpool st.mpools multipoolId mp' },
     [Effect.storeMpool multipoolId mp']⟩

/-! ### prediction_claimMultibet, source lines 2519-2566 -/

def prediction_claimMultibet (st : PredState) (ctx : Ctx)
    (betslipId : String) : OpResult :=
  if st.paused then ⟨some ("Contract paused"), st, []⟩ else
  match st.betslips betslipId with
  | none => ⟨some ("betslip missing"), st, []⟩
  | some slip =>
    if slip.isClaimed then ⟨some ("already claimed"), st, []⟩ else
    if ¬ slip.isAccounted then ⟨some ("not yet accounted"), st, []⟩ else
    match st.mpools slip.multipoolId with
    | none => ⟨some ("multipool missing"), st, []⟩
    | some mp =>
      if ¬ mp.isFinalized then ⟨some ("multipool not finalized"), st, []⟩ else
      if ¬ slip.isWinner then
        let slip' := { slip with isClaimed := true }
        ⟨none,
         { st with betslips := updSlip st.betslips betslipId slip',
                   counters := updCounter st.counters ("total_bets_claimed")
                     (st.counters ("total_bets_claimed") + 1) },
         [Effect.storeBetslip betslipId slip',
          Effect.storeCounter ("total_bets_claimed")
            (st.counters ("total_bets_claimed") + 1)]⟩
      else
        let houseAmount := u128mul mp.totalPool mp.houseEdgeBps / BASIS_POINTS
        let payoutPool := mp.totalPool - houseAmount
        if ¬ (0 < mp.totalWinnerWeightFP) then ⟨some ("no winners"), st, []⟩ else
        let payoutU := u128mul payoutPool slip.weightFP / mp.totalWinnerWeightFP
        let payoutU64 := toU64 payoutU
        let slip' := { slip with isClaimed := true }
        let st1 : PredState := { st with betslips := updSlip st.betslips betslipId slip' }
        let tr1 : List Effect :=
          [Effect.storeBetslip betslipId slip', Effect.balanceCheck ctx.callee]
        if ¬ (payoutU64 ≤ ctx.balanceOf ctx.callee) then
          ⟨some ("contract insufficient funds"), st1, tr1⟩ else
        ⟨none,
         { st1 with counters :=
                      updCounter st.counters ("total_bets_claimed")
                        (st.counters ("total_bets_claimed") + 1) },
         tr1 ++ [Effect.tokenTransfer slip.bettor payoutU64,
                 Effect.storeCounter ("total_bets_claimed")
                   (st.counters ("total_bets_claimed") + 1)]⟩

/-! ### Concrete scenario states used by the closed theorems -/

/-- Fresh prediction storage: empty stores, an authorized settler
    (registered via `prediction_setAuthorizedSettler`), not paused. -/
def predInit : PredState :=
  { pools := fun _ => none, bets := fun _ _ => none, mpools := fun _ => none,
    betslips := fun _ => none, counters := fun _ => 0,
    flags := fun k => k = "auth_settler:settler", paused := false }

/-- Token environment with ample allowance and balances everywhere. -/
def mkCtx (c : String) (ts : Nat) : Ctx :=
  { caller := c, callee := "contract", timestamp := ts,
    allowance := fun _ _ => 1000000000, balanceOf := fun _ => 1000000000 }

/-- sum of all token amounts transferred to one address in a trace. -/
def sumTransfersTo (tr : List Effect) (addr : String) : Nat :=
  tr.foldl (fun acc e => match e with
    | Effect.tokenTransfer t a => if t = addr then acc + a else acc
    | _ => acc) 0

-- Scenario A of the spec: pool p1, house edge 500 bps, alice stakes 1000
-- on outcome A, bob stakes 1000 on outcome B, pool closes, settles on A,
-- alice claims.
def stPoolCreated : PredState :=
  (prediction_createSinglePool predInit (mkCtx ("carol") 10) ("p1") ("b1") ("tok") 100).state

def stAliceBet : PredState :=
  (prediction_placeSingleBet stPoolCreated (mkCtx ("alice") 20) ("p1") 0 1000).state

def stBothBets : PredState :=
  (prediction_placeSingleBet stAliceBet (mkCtx ("bob") 30) ("p1") 1 1000).state

def stClosed : PredState :=
  (prediction_closeSinglePool stBothBets (mkCtx ("carol") 100) ("p1")).state

def stSettled : PredState :=
  (prediction_settleSinglePool stClosed (mkCtx ("settler") 110) ("p1") 0).state

def claimAlice : OpResult :=
  prediction_claimSingleBet stSettled (mkCtx ("anyone") 120) ("p1") ("alice")

/-! ### Claim C3 -/

/-- Claim C3 (confirmed): for a single pool with houseEdgeBps 500 holding
    1000 on outcome A and 1000 on outcome B (total 2000), closing the pool
    snapshots oddsA = oddsB = 1900000 at scale 1e6 (payout pool 1900), and
    after settling on A a bettor who staked 1000 on A with no prior win
    streak claims exactly 1900 tokens. -/
theorem c3_scenario_pool_odds_and_exact_payout :
    ((stClosed.pools ("p1")).map SinglePool.outcomeAOddsFP = some 1900000) ∧
    ((stClosed.pools ("p1")).map SinglePool.outcomeBOddsFP = some 1900000) ∧
    ((stClosed.pools ("p1")).map SinglePool.totalPool = some 2000) ∧
    ((stClosed.pools ("p1")).map payoutPoolOf = some 1900) ∧
    (stSettled.counters (streakKey ("alice")) = 0) ∧
    (claimAlice.err = none) ∧
    (sumTransfersTo claimAlice.trace ("alice") = 1900) := by
  refine ⟨?_, ?_, ?_, ?_, ?_, ?_, ?_⟩ <;> decide

/-! ### Claim C1 -/

def secondBetResult : OpResult :=
  prediction_placeSingleBet stAliceBet (mkCtx ("alice") 25) ("p1") 0 500

/-- Claim C1 (code bug): the spec requires a second
    `prediction_placeSingleBet` by the same bettor on the same pool to be
    rejected with no state change, but the code has no duplicate check:
    after alice has a 1000 stake bet recorded on p1, a second 500 stake
    bet by alice succeeds, is added again to the pool totals, and
    overwrites the stored bet (the recorded amount drops from 1000 to
    500, stranding the first stake). -/
theorem c1_second_bet_accepted_and_overwrites :
    ((stAliceBet.bets ("p1") ("alice")).map SingleBet.amount = some 1000) ∧
    (secondBetResult.err = none) ∧
    ((secondBetResult.state.pools ("p1")).map SinglePool.totalPool = some 1500) ∧
    ((secondBetResult.state.pools ("p1")).map SinglePool.outcomeABets = some 1500) ∧
    ((secondBetResult.state.bets ("p1") ("alice")).map SingleBet.amount = some 500) := by
  refine ⟨?_, ?_, ?_, ?_, ?_⟩ <;> decide

/-! ### Claim C9 -/

-- pool p9: alice bets 1000 with the out-of-range outcome 7, the settler
-- settles the pool with winning outcome 7, alice claims.
def stPool9 : PredState :=
  (prediction_createSinglePool predInit (mkCtx ("carol") 10) ("p9") ("b9") ("tok") 100).state

def bet9Result : OpResult :=
  prediction_placeSingleBet stPool9 (mkCtx ("alice") 20) ("p9") 7 1000

def stPool9Closed : PredState :=
  (prediction_closeSinglePool bet9Result.state (mkCtx ("carol") 100) ("p9")).state

def settle9Result : OpResult :=
  prediction_settleSinglePool stPool9Closed (mkCtx ("settler") 110) ("p9") 7

def claim9Result : OpResult :=
  prediction_claimSingleBet settle9Result.state (mkCtx ("anyone") 120) ("p9") ("alice")

/-- Claim C9 counterexample: a bet with outcome 7 is accepted and
    credited to the outcome B subtotal, but it is NOT always treated as a
    losing bet at claim time: `prediction_settleSinglePool` performs no
    range check either, so the settler can settle the pool with winning
    outcome 7, after which the outcome 7 bet matches the settled winning
    outcome and is paid as a winner (950 tokens transferred, win streak
    incremented to 1) instead of being treated as losing. -/
theorem c9_counterexample_outcome7_bet_wins :
    (bet9Result.err = none) ∧
    ((bet9Result.state.pools ("p9")).map SinglePool.outcomeBBets = some 1000) ∧
    ((bet9Result.state.pools ("p9")).map SinglePool.outcomeABets = some 0) ∧
    (settle9Result.err = none) ∧
    ((settle9Result.state.pools ("p9")).map SinglePool.winningOutcome = some 7) ∧
    ((settle9Result.state.bets ("p9") ("alice")).map SingleBet.outcome = some 7) ∧
    (claim9Result.err = none) ∧
    (sumTransfersTo claim9Result.trace ("alice") = 950) ∧
    (claim9Result.state.counters (streakKey ("alice")) = 1) := by
  refine ⟨?_, ?_, ?_, ?_, ?_, ?_, ?_, ?_, ?_⟩ <;> decide

theorem updCounter_same (m : String → Nat) (k : String) (v : Nat) :
    updCounter m k v k = v := by
  simp [updCounter]

theorem updCounter_diff (m : String → Nat) (k : String) (v : Nat)
    (x : String) (h : x ≠ k) : updCounter m k v x = m x := by
  simp [updCounter, h]

theorem updBet_same (m : String → String → Option SingleBet)
    (p b : String) (v : SingleBet) : updBet m p b v p b = some v := by
  simp [updBet]

theorem streakKey_ne_treasury (b : String) : streakKey b ≠ ("treasury_balance") := by
  intro h
  have h2 := congrArg String.data h
  simp [streakKey] at h2

/-! ### Claim C2 -/

/-- Claim C2 (confirmed): on a settled single pool, the sum of the
    payouts of any collection of winning claims, each computed by the
    code as `payoutPool * betAmount / winnerTotal` in u128 (with
    `payoutPool = totalPool - totalPool * houseEdgeBps / 10000`), is at
    most `payoutPool`, provided the claimed winning stakes sum to at most
    the winning side total; floor rounding never favors the bettor. -/
theorem c2_sum_of_winning_claims_le_payout_pool
    (p : SinglePool) (amounts : List Nat)
    (hw : 0 < winnerTotalOf p)
    (hsum : amounts.sum ≤ winnerTotalOf p) :
    (amounts.map (singleBetPayout p)).sum ≤ payoutPoolOf p := by
  have hterm : ∀ a : Nat,
      singleBetPayout p a ≤ payoutPoolOf p * a / winnerTotalOf p := by
    intro a
    unfold singleBetPayout u128mul
    exact Nat.div_le_div_right (Nat.mod_le _ _)
  have key : ∀ l : List Nat,
      (l.map (singleBetPayout p)).sum ≤
        payoutPoolOf p * l.sum / winnerTotalOf p := by
    intro l
    induction l with
    | nil => simp
    | cons a t ih =>
      simp only [List.map_cons, List.sum_cons]
      calc singleBetPayout p a + (t.map (singleBetPayout p)).sum
          ≤ payoutPoolOf p * a / winnerTotalOf p +
              payoutPoolOf p * t.sum / winnerTotalOf p :=
            Nat.add_le_add (hterm a) ih
        _ ≤ (payoutPoolOf p * a + payoutPoolOf p * t.sum) / winnerTotalOf p :=
            Nat.add_div_le_add_div _ _ _
        _ = payoutPoolOf p * (a + t.sum) / winnerTotalOf p := by
            rw [Nat.mul_add]
  calc (amounts.map (singleBetPayout p)).sum
      ≤ payoutPoolOf p * amounts.sum / winnerTotalOf p := key amounts
    _ ≤ payoutPoolOf p * winnerTotalOf p / winnerTotalOf p :=
        Nat.div_le_div_right (Nat.mul_le_mul_left _ hsum)
    _ = payoutPoolOf p := Nat.mul_div_cancel _ hw

/-- A settled pool record as stored for scenario A (2000 total, 1000 on
    each side, 500 bps edge, winner A), used as the concrete input of the
    C2 witness. -/
def poolScenA : SinglePool :=
  { poolId := "p1", battleId := "b1", token := "tok", closeTs := 100,
    totalPool := 2000, outcomeABets := 1000, outcomeBBets := 1000,
    outcomeAOddsFP := 1900000, outcomeBOddsFP := 1900000,
    houseEdgeBps := 500, isClosed := true, isSettled := true,
    winningOutcome := 0, createdAt := 10, maxPoolSize := 0,
    minBetSize := 1, maxBetSize := 0 }

/-- Witness for C2 at a concrete pool and stake list. -/
theorem c2_witness :
    ([600, 400].map (singleBetPayout poolScenA)).sum ≤ payoutPoolOf poolScenA :=
  c2_sum_of_winning_claims_le_payout_pool poolScenA [600, 400]
    (by decide) (by decide)

/-! ### Claim C4 -/

/-- token effects: balance checks and outgoing or incoming transfers. -/
def isTokenEff : Effect → Bool
  | Effect.balanceCheck _ => true
  | Effect.tokenTransfer _ _ => true
  | Effect.tokenTransferFrom _ _ _ => true
  | _ => false

/-- a storage write that persists a bet or betslip with the claimed flag set. -/
def isClaimedWrite : Effect → Bool
  | Effect.storeBet _ _ b => b.isClaimed
  | Effect.storeBetslip _ s => s.isClaimed
  | _ => false

/-- every token effect in the trace is strictly preceded by a storage
    write that persists the claimed flag (the boolean argument records
    whether such a write has been seen). -/
def claimedBeforeTok : List Effect → Bool → Prop
  | [], _ => True
  | e :: r, seen =>
    (isTokenEff e = true → seen = true) ∧
    claimedBeforeTok r (seen || isClaimedWrite e)

theorem claimSingleBet_trace_claimed_first (st : PredState) (ctx : Ctx)
    (pid btr : String) :
    claimedBeforeTok (prediction_claimSingleBet st ctx pid btr).trace false := by
  simp only [prediction_claimSingleBet]
  repeat' split
  all_goals simp_all [claimedBeforeTok, isTokenEff, isClaimedWrite]

theorem claimMultibet_trace_claimed_first (st : PredState) (ctx : Ctx)
    (sid : String) :
    claimedBeforeTok (prediction_claimMultibet st ctx sid).trace false := by
  simp only [prediction_claimMultibet]
  repeat' split
  all_goals simp_all [claimedBeforeTok, isTokenEff, isClaimedWrite]

set_option maxHeartbeats 1600000 in
theorem claimSingleBet_success_state (st : PredState) (ctx : Ctx)
    (pid btr : String)
    (h : (prediction_claimSingleBet st ctx pid btr).err = none) :
    (prediction_claimSingleBet st ctx pid btr).state.paused = false ∧
    (∃ pool, (prediction_claimSingleBet st ctx pid btr).state.pools pid = some pool ∧
      pool.isSettled = true) ∧
    (∃ bet, (prediction_claimSingleBet st ctx pid btr).state.bets pid btr = some bet ∧
      bet.isClaimed = true) := by
  simp only [prediction_claimSingleBet] at h ⊢
  repeat' split at h
  all_goals simp_all [updBet]

set_option maxHeartbeats 1600000 in
theorem claimMultibet_success_state (st : PredState) (ctx : Ctx)
    (sid : String)
    (h : (prediction_claimMultibet st ctx sid).err = none) :
    (prediction_claimMultibet st ctx sid).state.paused = false ∧
    (∃ slip, (prediction_claimMultibet st ctx sid).state.betslips sid = some slip ∧
      slip.isClaimed = true) := by
  simp only [prediction_claimMultibet] at h ⊢
  repeat' split at h
  all_goals simp_all [updSlip]

theorem claimSingleBet_success_blocks_reclaim (st : PredState)
    (ctx ctx2 : Ctx) (pid btr : String)
    (h : (prediction_claimSingleBet st ctx pid btr).err = none) :
    (prediction_claimSingleBet
        (prediction_claimSingleBet st ctx pid btr).state ctx2 pid btr).err
      = some ("already claimed") := by
  obtain ⟨hp, ⟨pool, hpool, hsettled⟩, ⟨bet, hbet, hclaimed⟩⟩ :=
    claimSingleBet_success_state st ctx pid btr h
  generalize hS : (prediction_claimSingleBet st ctx pid btr).state = S at hp hpool hbet
  simp [prediction_claimSingleBet, hp, hpool, hsettled, hbet, hclaimed]

theorem claimMultibet_success_blocks_reclaim (st : PredState)
    (ctx ctx2 : Ctx) (sid : String)
    (h : (prediction_claimMultibet st ctx sid).err = none) :
    (prediction_claimMultibet
        (prediction_claimMultibet st ctx sid).state ctx2 sid).err
      = some ("already claimed") := by
  obtain ⟨hp, ⟨slip, hslip, hclaimed⟩⟩ := claimMultibet_success_state st ctx sid h
  generalize hS : (prediction_claimMultibet st ctx sid).state = S at hp hslip
  simp [prediction_claimMultibet, hp, hslip, hclaimed]

/-- Claim C4 (confirmed): in both payout paths, the claimed flag is
    persisted to storage strictly before any token balance check or
    token transfer, and once a claim has succeeded a second claim on the
    same bet or betslip aborts with the already-claimed error. -/
theorem c4_claimed_persisted_before_any_token_effect :
    (∀ (st : PredState) (ctx : Ctx) (pid btr : String),
      claimedBeforeTok (prediction_claimSingleBet st ctx pid btr).trace false) ∧
    (∀ (st : PredState) (ctx : Ctx) (sid : String),
      claimedBeforeTok (prediction_claimMultibet st ctx sid).trace false) ∧
    (∀ (st : PredState) (ctx ctx2 : Ctx) (pid btr : String),
      (prediction_claimSingleBet st ctx pid btr).err = none →
      (prediction_claimSingleBet
          (prediction_claimSingleBet st ctx pid btr).state ctx2 pid btr).err
        = some ("already claimed")) ∧
    (∀ (st : PredState) (ctx ctx2 : Ctx) (sid : String),
      (prediction_claimMultibet st ctx sid).err = none →
      (prediction_claimMultibet
          (prediction_claimMultibet st ctx sid).state ctx2 sid).err
        = some ("already claimed")) :=
  ⟨claimSingleBet_trace_claimed_first, claimMultibet_trace_claimed_first,
   claimSingleBet_success_blocks_reclaim, claimMultibet_success_blocks_reclaim⟩

/-- Witness for C4 at the scenario A claim. -/
theorem c4_witness :
    claimedBeforeTok
      (prediction_claimSingleBet stSettled (mkCtx ("anyone") 120) ("p1") ("alice")).trace
      false ∧
    (prediction_claimSingleBet
        (prediction_claimSingleBet stSettled (mkCtx ("anyone") 120) ("p1") ("alice")).state
        (mkCtx ("anyone") 130) ("p1") ("alice")).err = some ("already claimed") :=
  ⟨c4_claimed_persisted_before_any_token_effect.1 stSettled (mkCtx ("anyone") 120) ("p1") ("alice"),
   c4_claimed_persisted_before_any_token_effect.2.2.1 stSettled
     (mkCtx ("anyone") 120) (mkCtx ("anyone") 130) ("p1") ("alice") (by decide)⟩

/-! ### Claim C7 -/

theorem parseSelections_combined (st : PredState) :
    ∀ (l : List (String × Int)) (acc c : Nat) (sels : List BetslipSelection),
      parseSelections st l acc = Except.ok (c, sels) →
      c = (sels.map BetslipSelection.oddsFP).foldl
            (fun a o => u128mul a o / ODDS_SCALE) acc := by
  intro l
  induction l with
  | nil =>
    intro acc c sels h
    simp only [parseSelections, Except.ok.injEq, Prod.mk.injEq] at h
    obtain ⟨h1, h2⟩ := h
    subst h1; subst h2
    simp
  | cons hd tl ih =>
    intro acc c sels h
    obtain ⟨poolId, outcome⟩ := hd
    simp only [parseSelections] at h
    repeat' split at h
    all_goals try exact Except.noConfusion h
    all_goals
      rename_i hrec
      simp only [Except.ok.injEq, Prod.mk.injEq] at h
      obtain ⟨h1, h2⟩ := h
      subst h1
      subst h2
      simpa using ih _ _ _ hrec

theorem checkSelections_ok_iff (st : PredState) :
    ∀ (l : List BetslipSelection) (b : Bool),
      checkSelections st l = Except.ok b →
      (b = true ↔ ∀ sel ∈ l, ∃ p, st.pools sel.poolId = some p ∧
        p.isSettled = true ∧ p.winningOutcome = sel.outcome) := by
  intro l
  induction l with
  | nil =>
    intro b h
    simp only [checkSelections, Except.ok.injEq] at h
    subst h
    simp
  | cons hd tl ih =>
    intro b h
    simp only [checkSelections] at h
    split at h
    · exact absurd h (by simp)
    · rename_i pool hpool
      split at h
      · exact absurd h (by simp)
      · rename_i hsettled
        split at h
        · rename_i hmiss
          simp only [Except.ok.injEq] at h
          subst h
          simp only [List.forall_mem_cons]
          constructor
          · intro hfalse; exact absurd hfalse (by simp)
          · rintro ⟨⟨p, hp, _, hw⟩, _⟩
            rw [hpool] at hp
            cases hp
            exact absurd hw hmiss
        · rename_i hmatch
          rw [ih b h]
          simp only [List.forall_mem_cons]
          constructor
          · intro htl
            refine ⟨⟨pool, hpool, ?_, ?_⟩, htl⟩
            · simpa using hsettled
            · simpa using hmatch
          · rintro ⟨_, htl⟩
            exact htl

/-- Claim C7 (confirmed): on a successful `prediction_placeMultibet` the
    stored betslip records combined odds equal to the left-to-right fixed
    point product of the per-leg snapshot odds (running = running × leg /
    1e6 in u128, seeded at 1e6) and weight = amount × combinedOdds / 1e6;
    and a successful `prediction_checkBetslipWinner` sets the winner flag
    true exactly when every leg's snapshot outcome equals the settled
    winning outcome of the referenced pool. -/
theorem c7_parlay_combined_odds_and_winner_iff :
    (∀ (st : PredState) (ctx : Ctx) (bid mid : String) (amt : Nat)
        (selIn : List (String × Int)),
      (prediction_placeMultibet st ctx bid mid amt selIn).err = none →
      ∃ slip, (prediction_placeMultibet st ctx bid mid amt selIn).state.betslips bid
          = some slip ∧
        slip.combinedOddsFP = (slip.selections.map BetslipSelection.oddsFP).foldl
            (fun a o => u128mul a o / ODDS_SCALE) ODDS_SCALE ∧
        slip.weightFP = u128mul amt slip.combinedOddsFP / ODDS_SCALE) ∧
    (∀ (st : PredState) (ctx : Ctx) (bid : String) (slip0 : Betslip),
      st.betslips bid = some slip0 →
      (prediction_checkBetslipWinner st ctx bid).err = none →
      ∃ slip, (prediction_checkBetslipWinner st ctx bid).state.betslips bid = some slip ∧
        slip.selections = slip0.selections ∧
        (slip.isWinner = true ↔ ∀ sel ∈ slip0.selections,
          ∃ p, st.pools sel.poolId = some p ∧
            p.isSettled = true ∧ p.winningOutcome = sel.outcome)) := by
  constructor
  · intro st ctx bid mid amt selIn
    simp only [prediction_placeMultibet]
    repeat' split
    all_goals intro h
    all_goals try exact Option.noConfusion h
    refine ⟨_, if_pos rfl, ?_, ?_⟩
    · simpa using parseSelections_combined st selIn ODDS_SCALE _ _ (by assumption)
    · rfl
  · intro st ctx bid slip0 hslip
    simp only [prediction_checkBetslipWinner, hslip]
    repeat' split
    all_goals intro h
    all_goals try exact Option.noConfusion h
    · refine ⟨_, if_pos rfl, rfl, ?_⟩
      simpa using checkSelections_ok_iff st slip0.selections _ (by assumption)
    · refine ⟨_, if_pos rfl, rfl, ?_⟩
      simpa using checkSelections_ok_iff st slip0.selections _ (by assumption)

-- Scenario D: two closed pools with snapshot odds 2.0e6 and 1.5e6, a
-- two leg parlay of stake 100 on them.
def poolD1 : SinglePool :=
  { poolId := "q1", battleId := "b1", token := "tok", closeTs := 5,
    totalPool := 1000, outcomeABets := 500, outcomeBBets := 500,
    outcomeAOddsFP := 2000000, outcomeBOddsFP := 0,
    houseEdgeBps := 500, isClosed := true, isSettled := true,
    winningOutcome := 0, createdAt := 1, maxPoolSize := 0,
    minBetSize := 1, maxBetSize := 0 }

def poolD2 : SinglePool :=
  { poolId := "q2", battleId := "b2", token := "tok", closeTs := 5,
    totalPool := 1000, outcomeABets := 600, outcomeBBets := 400,
    outcomeAOddsFP := 1500000, outcomeBOddsFP := 0,
    houseEdgeBps := 500, isClosed := true, isSettled := true,
    winningOutcome := 0, createdAt := 1, maxPoolSize := 0,
    minBetSize := 1, maxBetSize := 0 }

def mpoolD : Multipool :=
  { multipoolId := "m1", token := "tok", totalPool := 0, totalWeightFP := 0,
    totalWinnerWeightFP := 0, isFinalized := false,
    houseEdgeBps := 500, createdAt := 1 }

def stScenD : PredState :=
  { predInit with
      pools := fun k => if k = "q1" then some poolD1 else
        if k = "q2" then some poolD2 else none,
      mpools := fun k => if k = "m1" then some mpoolD else none }

def placeD : OpResult :=
  prediction_placeMultibet stScenD (mkCtx ("dave") 10) ("s1") ("m1") 100
    [("q1", 0), ("q2", 0)]

/-- Witness for C7 on scenario D: the two leg parlay with leg odds
    2000000 and 1500000 gets combined odds 3000000 and weight 300 for a
    100 stake. -/
theorem c7_witness :
    ((placeD.state.betslips ("s1")).map Betslip.combinedOddsFP = some 3000000) ∧
    ((placeD.state.betslips ("s1")).map Betslip.weightFP = some 300) ∧
    (∃ slip, placeD.state.betslips ("s1") = some slip ∧
      slip.combinedOddsFP = (slip.selections.map BetslipSelection.oddsFP).foldl
          (fun a o => u128mul a o / ODDS_SCALE) ODDS_SCALE ∧
      slip.weightFP = u128mul 100 slip.combinedOddsFP / ODDS_SCALE) :=
  ⟨by decide, by decide,
   c7_parlay_combined_odds_and_winner_iff.1 stScenD (mkCtx ("dave") 10)
     ("s1") ("m1") 100 [("q1", 0), ("q2", 0)] (by decide)⟩

/-! ### Claim C9, amended -/

set_option maxHeartbeats 1600000 in
/-- Claim C9 as amended (the placement half is as claimed; the claim half
    only holds when the settled winning outcome itself is in range):
    `prediction_placeSingleBet` performs no outcome validation, so every
    successful bet with outcome ≠ 0 is credited to the outcome B subtotal
    and the pool total; and at claim time a bet whose outcome is outside
    \x7b0,1\x7d is treated as a losing bet (claimed with zero payout, no
    token transfer, streak reset) provided the pool was settled with a
    winning outcome in \x7b0,1\x7d. -/
theorem c9_amended_unvalidated_outcome_credits_b_and_loses :
    (∀ (st : PredState) (ctx : Ctx) (pid : String) (outcome : Int)
        (amt : Nat) (pool : SinglePool),
      st.pools pid = some pool →
      outcome ≠ 0 →
      (prediction_placeSingleBet st ctx pid outcome amt).err = none →
      ∃ pool', (prediction_placeSingleBet st ctx pid outcome amt).state.pools pid
          = some pool' ∧
        pool'.outcomeBBets = u128add pool.outcomeBBets amt ∧
        pool'.outcomeABets = pool.outcomeABets ∧
        pool'.totalPool = u128add pool.totalPool amt) ∧
    (∀ (st : PredState) (ctx : Ctx) (pid btr : String)
        (pool : SinglePool) (bet : SingleBet),
      st.paused = false →
      st.pools pid = some pool →
      pool.isSettled = true →
      st.bets pid btr = some bet →
      bet.isClaimed = false →
      (pool.winningOutcome = 0 ∨ pool.winningOutcome = 1) →
      bet.outcome ≠ 0 → bet.outcome ≠ 1 →
      (prediction_claimSingleBet st ctx pid btr).err = none ∧
      (prediction_claimSingleBet st ctx pid btr).state.bets pid btr
        = some { bet with isClaimed := true } ∧
      (∀ e ∈ (prediction_claimSingleBet st ctx pid btr).trace, isTokenEff e = false) ∧
      (prediction_claimSingleBet st ctx pid btr).state.counters (streakKey btr) = 0) := by
  constructor
  · intro st ctx pid outcome amt pool hpool hout h
    simp only [prediction_placeSingleBet, hpool] at h ⊢
    rw [if_neg hout] at h ⊢
    repeat' split at h
    all_goals simp_all [updPool]
    rename_i hmax hcap hall hbal
    rw [if_neg (by rintro ⟨a, b⟩; have := hmax a; omega),
        if_neg (by rintro ⟨a, b⟩; have := hcap a; omega)]
    exact ⟨_, if_pos rfl, rfl, rfl, rfl⟩
  · intro st ctx pid btr pool bet hpaused hpool hsettled hbet hclaimed hw h0 h1
    have hne : bet.outcome ≠ pool.winningOutcome := by
      rcases hw with hw | hw <;> rw [hw] <;> assumption
    simp only [prediction_claimSingleBet, hpool, hbet]
    rw [if_neg (show ¬ st.paused = true by simp [hpaused]),
        if_neg (not_not_intro hsettled),
        if_neg (show ¬ bet.isClaimed = true by simp [hclaimed]),
        if_pos hne]
    refine ⟨rfl, updBet_same _ _ _ _, ?_, updCounter_same _ _ _⟩
    intro e he
    simp only [List.mem_cons, List.not_mem_nil, or_false] at he
    rcases he with he | he | he <;> subst he <;> rfl

-- concrete input for the C9 amended claim half: a pool settled on
-- outcome 0 holding an unclaimed bet with outcome 7.
def poolW : SinglePool := { poolScenA with poolId := "pw" }

def betW : SingleBet :=
  { bettor := "eve", poolId := "pw", amount := 100, outcome := 7,
    isClaimed := false, placedAt := 1 }

def stC9W : PredState :=
  { predInit with
      pools := fun k => if k = "pw" then some poolW else none,
      bets := fun p b => if p = "pw" ∧ b = "eve" then some betW else none }

set_option maxRecDepth 10000 in
/-- Witness for the amended C9 at concrete inputs: the outcome 7 bet of
    scenario pool p9 is credited to side B at placement, and an outcome 7
    bet on a pool settled with winning outcome 0 is claimed as a loser. -/
theorem c9_amended_witness :
    (∃ pool', (prediction_placeSingleBet stPool9 (mkCtx ("alice") 20) ("p9") 7 1000).state.pools ("p9")
        = some pool' ∧
      pool'.outcomeBBets = u128add 0 1000 ∧
      pool'.outcomeABets = 0 ∧
      pool'.totalPool = u128add 0 1000) ∧
    ((prediction_claimSingleBet stC9W (mkCtx ("anyone") 5) ("pw") ("eve")).err = none ∧
      (prediction_claimSingleBet stC9W (mkCtx ("anyone") 5) ("pw") ("eve")).state.bets ("pw") ("eve")
        = some { betW with isClaimed := true } ∧
      (∀ e ∈ (prediction_claimSingleBet stC9W (mkCtx ("anyone") 5) ("pw") ("eve")).trace,
        isTokenEff e = false) ∧
      (prediction_claimSingleBet stC9W (mkCtx ("anyone") 5) ("pw") ("eve")).state.counters
          (streakKey ("eve")) = 0) := by
  constructor
  · have h9 : stPool9.pools ("p9") = some
        { poolId := "p9", battleId := "b9", token := "tok", closeTs := 100,
          totalPool := 0, outcomeABets := 0, outcomeBBets := 0,
          outcomeAOddsFP := 0, outcomeBOddsFP := 0,
          houseEdgeBps := DEFAULT_HOUSE_EDGE_BPS, isClosed := false,
          isSettled := false, winningOutcome := -1, createdAt := 10,
          maxPoolSize := 0, minBetSize := 1, maxBetSize := 0 } := by decide
    exact c9_amended_unvalidated_outcome_credits_b_and_loses.1 stPool9
      (mkCtx ("alice") 20) ("p9") 7 1000 _ h9 (by decide) (by decide)
  · exact c9_amended_unvalidated_outcome_credits_b_and_loses.2 stC9W
      (mkCtx ("anyone") 5) ("pw") ("eve") poolW betW rfl (by decide) (by decide)
      (by decide) (by decide) (by decide) (by decide) (by decide)

/-! ### Claim C10 -/

/-- One successful winning claim: the pool record is untouched, other
    bets are untouched, and the treasury counter is credited with the
    truncated house edge amount of the pool again. -/
theorem claimSingleBet_winning_treasury_step
    (st : PredState) (ctx : Ctx) (pid btr : String)
    (pool : SinglePool) (bet : SingleBet)
    (hpaused : st.paused = false)
    (hpool : st.pools pid = some pool)
    (hsettled : pool.isSettled = true)
    (hbet : st.bets pid btr = some bet)
    (hclaimed : bet.isClaimed = false)
    (hwin : bet.outcome = pool.winningOutcome)
    (hw : 0 < winnerTotalOf pool)
    (hbal : toU64 (singleBetPayout pool bet.amount) ≤ ctx.balanceOf ctx.callee)
    (hnw : st.counters ("treasury_balance") + toU64 (houseAmountOf pool) < U64) :
    (prediction_claimSingleBet st ctx pid btr).err = none ∧
    (prediction_claimSingleBet st ctx pid btr).state.pools = st.pools ∧
    (prediction_claimSingleBet st ctx pid btr).state.paused = st.paused ∧
    (∀ b2, b2 ≠ btr →
      (prediction_claimSingleBet st ctx pid btr).state.bets pid b2 = st.bets pid b2) ∧
    (prediction_claimSingleBet st ctx pid btr).state.counters ("treasury_balance")
      = st.counters ("treasury_balance") + toU64 (houseAmountOf pool) := by
  simp only [prediction_claimSingleBet, hpool, hbet]
  rw [if_neg (show ¬ st.paused = true by simp [hpaused]),
      if_neg (not_not_intro hsettled),
      if_neg (show ¬ bet.isClaimed = true by simp [hclaimed]),
      if_neg (not_not_intro hwin),
      if_neg (not_not_intro hw),
      if_neg (not_not_intro hbal)]
  refine ⟨rfl, rfl, rfl, ?_, ?_⟩
  · intro b2 hb2
    simp [updBet, hb2]
  · have hne1 : ("treasury_balance" : String) ≠ ("total_bets_claimed") := by decide
    have hne2 := Ne.symm (streakKey_ne_treasury btr)
    by_cases hh : 0 < toU64 (houseAmountOf pool)
    · rw [if_pos hh]
      simp only [updCounter_same, updCounter_diff _ _ _ _ hne1,
        updCounter_diff _ _ _ _ hne2]
      exact Nat.mod_eq_of_lt hnw
    · rw [if_neg hh]
      simp only [updCounter_diff _ _ _ _ hne1, updCounter_diff _ _ _ _ hne2]
      omega

/-- folding a list of claim calls (bettor, call context) on one pool. -/
def runClaims (pid : String) : List (String × Ctx) → PredState → PredState
  | [], st => st
  | (b, c) :: rest, st =>
    runClaims pid rest (prediction_claimSingleBet st c pid b).state

/-- Claim C10 (confirmed): every successful winning claim credits the
    treasury counter with the pool house edge again, so after k winning
    claims on the same settled pool the treasury counter has been
    credited k times `totalPool * houseEdgeBps / 10000`, not once per
    pool. -/
theorem c10_treasury_credited_once_per_winning_claim
    (pid : String) (pool : SinglePool) (l : List (String × Ctx))
    (st : PredState)
    (hpaused : st.paused = false)
    (hpool : st.pools pid = some pool)
    (hsettled : pool.isSettled = true)
    (hw : 0 < winnerTotalOf pool)
    (hmul : pool.totalPool * pool.houseEdgeBps < U128)
    (hhu : pool.totalPool * pool.houseEdgeBps / BASIS_POINTS < U64)
    (hnodup : (l.map Prod.fst).Nodup)
    (hbets : ∀ p ∈ l, ∃ bet, st.bets pid p.1 = some bet ∧
      bet.isClaimed = false ∧ bet.outcome = pool.winningOutcome ∧
      toU64 (singleBetPayout pool bet.amount) ≤ p.2.balanceOf p.2.callee)
    (hnw : st.counters ("treasury_balance") +
      l.length * (pool.totalPool * pool.houseEdgeBps / BASIS_POINTS) < U64) :
    (runClaims pid l st).counters ("treasury_balance")
      = st.counters ("treasury_balance") +
        l.length * (pool.totalPool * pool.houseEdgeBps / BASIS_POINTS) := by
  have hhouse : houseAmountOf pool = pool.totalPool * pool.houseEdgeBps / BASIS_POINTS := by
    unfold houseAmountOf u128mul
    rw [Nat.mod_eq_of_lt hmul]
  have htu : toU64 (houseAmountOf pool) = pool.totalPool * pool.houseEdgeBps / BASIS_POINTS := by
    rw [hhouse]
    unfold toU64
    exact Nat.mod_eq_of_lt hhu
  induction l generalizing st with
  | nil => simp [runClaims]
  | cons hd tl ih =>
    obtain ⟨b, c⟩ := hd
    obtain ⟨bet, hbet, hbc, hbo, hbb⟩ := hbets (b, c) (List.mem_cons_self _ _)
    have hstep := claimSingleBet_winning_treasury_step st c pid b pool bet
      hpaused hpool hsettled hbet hbc hbo hw hbb
      (by
        rw [← htu] at hnw
        simp only [List.length_cons] at hnw
        have hXle : toU64 (houseAmountOf pool)
            ≤ (tl.length + 1) * toU64 (houseAmountOf pool) :=
          Nat.le_mul_of_pos_left _ (Nat.succ_pos _)
        omega)
    obtain ⟨_, hpools, hpaused2, hbets2, htreas⟩ := hstep
    have hnodup2 : (tl.map Prod.fst).Nodup := by
      simpa using hnodup.of_cons
    have hnotmem : b ∉ tl.map Prod.fst := by
      simp only [List.map_cons, List.nodup_cons] at hnodup
      exact hnodup.1
    simp only [runClaims]
    rw [ih _ (by rw [hpaused2, hpaused]) (by rw [hpools, hpool]) hnodup2 ?_ ?_]
    · rw [htreas, htu, List.length_cons]
      ring
    · intro p hp
      obtain ⟨bet2, hbet2, rest2⟩ := hbets p (List.mem_cons_of_mem _ hp)
      refine ⟨bet2, ?_, rest2⟩
      rw [hbets2 p.1 ?_, hbet2]
      intro hcontra
      exact hnotmem (by rw [← hcontra]; exact List.mem_map_of_mem Prod.fst hp)
    · rw [htreas, htu]
      simp only [List.length_cons] at hnw
      have hexp : (tl.length + 1) * (pool.totalPool * pool.houseEdgeBps / BASIS_POINTS)
          = pool.totalPool * pool.houseEdgeBps / BASIS_POINTS
            + tl.length * (pool.totalPool * pool.houseEdgeBps / BASIS_POINTS) := by
        ring
      omega

/-- Witness for C10: two distinct winning bettors on one settled pool. -/
def stC10 : PredState :=
  { predInit with
      pools := fun k => if k = "pw" then some poolW else none,
      bets := fun p b =>
        if p = "pw" ∧ b = "u1" then
          some { bettor := "u1", poolId := "pw", amount := 600,
                 outcome := 0, isClaimed := false, placedAt := 1 }
        else if p = "pw" ∧ b = "u2" then
          some { bettor := "u2", poolId := "pw", amount := 400,
                 outcome := 0, isClaimed := false, placedAt := 1 }
        else none }

theorem c10_witness :
    (runClaims ("pw") [("u1", mkCtx ("x") 5), ("u2", mkCtx ("y") 6)] stC10).counters
        ("treasury_balance")
      = stC10.counters ("treasury_balance") +
        2 * (poolW.totalPool * poolW.houseEdgeBps / BASIS_POINTS) :=
  c10_treasury_credited_once_per_winning_claim ("pw") poolW
    [("u1", mkCtx ("x") 5), ("u2", mkCtx ("y") 6)] stC10
    rfl (by decide) (by decide) (by decide) (by decide) (by decide)
    (by decide)
    (by
      intro p hp
      simp only [List.mem_cons, List.not_mem_nil, or_false] at hp
      rcases hp with hp | hp <;> subst hp
      · exact ⟨{ bettor := "u1", poolId := "pw", amount := 600,
                 outcome := 0, isClaimed := false, placedAt := 1 },
               by decide, by decide, by decide, by decide⟩
      · exact ⟨{ bettor := "u2", poolId := "pw", amount := 400,
                 outcome := 0, isClaimed := false, placedAt := 1 },
               by decide, by decide, by decide, by decide⟩)
    (by decide)

/-! ### Game contract data model (source lines 226-541)

Monetary-scale u64 fields (hp, xp, stat values) are idealised as
unbounded Nat (they grow by bounded increments per call); the u16 level
and u64 xp arithmetic of `game_grantXP` keeps its explicit wraps since
the claims speak about them. -/

/-- `Character` record, source lines 292-405 (`characterClass` is named
    `classU8` here). -/
structure Character where
  owner : String
  classU8 : Nat
  name : String
  level : Nat
  xp : Nat
  maxHp : Nat
  currentHp : Nat
  baseDamageMin : Nat
  baseDamageMax : Nat
  critChance : Nat
  dodgeChance : Nat
  defense : Nat
  totalWins : Nat
  totalLosses : Nat
  mmr : Nat
  createdAt : Nat
  weaponId : String
  armorId : String
  accessoryId : String
  skill1 : Nat
  skill2 : Nat
  skill3 : Nat
  learnedSkills : String
  currentEnergy : Nat
deriving DecidableEq

/-- `Battle` record, source lines 407-541. -/
structure Battle where
  player1Char : String
  player2Char : String
  player1Owner : String
  player2Owner : String
  startTs : Nat
  createdAt : Nat
  turnNumber : Nat
  currentTurn : Nat
  isFinished : Bool
  winner : Nat
  player1Hp : Nat
  player2Hp : Nat
  wildcardActive : Bool
  wildcardType : Nat
  wildcardDecisionDeadline : Nat
  wildcardPlayer1Decision : Int
  wildcardPlayer2Decision : Int
  player1StatusEffects : Nat
  player2StatusEffects : Nat
  player1StatusDuration : Nat
  player2StatusDuration : Nat
  player1ComboCount : Nat
  player2ComboCount : Nat
  player1Skill1Cooldown : Nat
  player1Skill2Cooldown : Nat
  player1Skill3Cooldown : Nat
  player2Skill1Cooldown : Nat
  player2Skill2Cooldown : Nat
  player2Skill3Cooldown : Nat
deriving DecidableEq

/-- `Equipment` record, source lines 227-290. -/
structure Equipment where
  equipmentId : String
  owner : String
  type : Nat
  rarity : Nat
  hpBonus : Nat
  damageMinBonus : Nat
  damageMaxBonus : Nat
  critBonus : Nat
  dodgeBonus : Nat
  durability : Nat
  currentDurability : Nat
  createdAt : Nat
deriving DecidableEq

/-- Game contract storage (`character:<id>`, `battle:<id>`,
    `equipment:<id>`, counters, role keys). -/
structure GameState where
  characters : String → Option Character
  battles : String → Option Battle
  equips : String → Option Equipment
  counters : String → Nat
  flags : String → Bool
  paused : Bool

structure GCtx where
  caller : String
  timestamp : Nat

/-- Result of a game operation: abort message (none on success) and the
    resulting storage state (game operations perform no writes before
    their asserts, so an aborted call leaves the state unchanged). -/
structure GResult where
  err : Option String
  state : GameState

def updChar (m : String → Option Character) (k : String) (v : Character) :
    String → Option Character :=
  fun x => if x = k then some v else m x

def updBattle (m : String → Option Battle) (k : String) (v : Battle) :
    String → Option Battle :=
  fun x => if x = k then some v else m x

def updEquip (m : String → Option Equipment) (k : String) (v : Equipment) :
    String → Option Equipment :=
  fun x => if x = k then some v else m x

/-- `simple_random`, source lines 702-710: xorshift over
    `seed ^ salt ^ timestamp` in u64. -/
def simple_random (seed salt ts : Nat) : Nat :=
  let x := Nat.xor (Nat.xor (seed % U64) (salt % U64)) (ts % U64)
  let r1 := Nat.xor x ((x * 2 ^ 13) % U64)
  let r2 := Nat.xor r1 (r1 / 2 ^ 7)
  let r3 := Nat.xor r2 ((r2 * 2 ^ 17) % U64)
  r3 % U64

/-! ### game_createCharacter, source lines 573-642 -/

def game_createCharacter (st : GameState) (ctx : GCtx)
    (id : String) (classU8 : Nat) (nm : String) : GResult :=
  if st.paused then ⟨some ("Contract paused"), st⟩ else
  match st.characters id with
  | some _ => ⟨some ("character exists"), st⟩
  | none =>
    if 5 ≤ classU8 then ⟨some ("invalid class"), st⟩ else
    let base : Character :=
      { owner := ctx.caller, classU8 := classU8, name := nm, level := 1,
        xp := 0, maxHp := 0, currentHp := 0, baseDamageMin := 0,
        baseDamageMax := 0, critChance := 0, dodgeChance := 0,
        defense := 0, totalWins := 0, totalLosses := 0, mmr := 1000,
        createdAt := ctx.timestamp, weaponId := "", armorId := "",
        accessoryId := "", skill1 := 0, skill2 := 0, skill3 := 0,
        learnedSkills := "", currentEnergy := MAX_ENERGY }
    let c :=
      if classU8 = 0 then
        { base with maxHp := 120, currentHp := 120, baseDamageMin := 8,
                    baseDamageMax := 15, critChance := 15, dodgeChance := 0 }
      else if classU8 = 1 then
        { base with maxHp := 90, currentHp := 90, baseDamageMin := 12,
                    baseDamageMax := 20, critChance := 35, dodgeChance := 20 }
      else if classU8 = 2 then
        { base with maxHp := 80, currentHp := 80, baseDamageMin := 10,
                    baseDamageMax := 18, critChance := 20, dodgeChance := 0 }
      else if classU8 = 3 then
        { base with maxHp := 150, currentHp := 150, baseDamageMin := 6,
                    baseDamageMax := 12, critChance := 10, dodgeChance := 0 }
      else
        { base with maxHp := 100, currentHp := 100, baseDamageMin := 9,
                    baseDamageMax := 16, critChance := 25, dodgeChance := 15 }
    ⟨none, { st with characters := updChar st.characters id c,
                     counters := updCounter st.counters ("character_count")
                       (st.counters ("character_count") + 1) }⟩

/-! ### game_createBattle, source lines 653-699 -/

def game_createBattle (st : GameState) (ctx : GCtx)
    (battleId char1Id char2Id : String) (startTs : Nat) : GResult :=
  if st.paused then ⟨some ("Contract paused"), st⟩ else
  match st.battles battleId with
  | some _ => ⟨some ("battle exists"), st⟩
  | none =>
    match st.characters char1Id, st.characters char2Id with
    | some c1, some c2 =>
      if ¬ (ctx.caller = c1.owner) then ⟨some ("not owner of char1"), st⟩ else
      let b : Battle :=
        { player1Char := char1Id, player2Char := char2Id,
          player1Owner := c1.owner, player2Owner := c2.owner,
          startTs := startTs, createdAt := ctx.timestamp, turnNumber := 0,
          currentTurn := 1, isFinished := false, winner := 0,
          player1Hp := c1.maxHp, player2Hp := c2.maxHp,
          wildcardActive := false, wildcardType := 0,
          wildcardDecisionDeadline := 0, wildcardPlayer1Decision := -1,
          wildcardPlayer2Decision := -1, player1StatusEffects := 0,
          player2StatusEffects := 0, player1StatusDuration := 0,
          player2StatusDuration := 0, player1ComboCount := 0,
          player2ComboCount := 0, player1Skill1Cooldown := 0,
          player1Skill2Cooldown := 0, player1Skill3Cooldown := 0,
          player2Skill1Cooldown := 0, player2Skill2Cooldown := 0,
          player2Skill3Cooldown := 0 }
      ⟨none, { st with battles := updBattle st.battles battleId b,
                       counters := updCounter st.counters ("battle_count")
                         (st.counters ("battle_count") + 1) }⟩
    | _, _ => ⟨some ("characters missing"), st⟩

/-! ### game_upgradeCharacter, source lines 1223-1266 -/

def game_upgradeCharacter (st : GameState) (ctx : GCtx)
    (charId : String) (upgradeType : Nat) : GResult :=
  if st.paused then ⟨some ("Contract paused"), st⟩ else
  match st.characters charId with
  | none => ⟨some ("character not found"), st⟩
  | some c =>
    if ¬ (ctx.caller = c.owner) then ⟨some ("not owner"), st⟩ else
    if ¬ (100 ≤ c.xp) then ⟨some ("insufficient XP"), st⟩ else
    if 4 ≤ upgradeType then ⟨some ("invalid upgrade type"), st⟩ else
    let c0 := { c with xp := c.xp - 100 }
    let c' :=
      if upgradeType = 0 then
        { c0 with maxHp := c0.maxHp + 10, currentHp := c0.maxHp + 10 }
      else if upgradeType = 1 then
        { c0 with baseDamageMin := c0.baseDamageMin + 2,
                  baseDamageMax := c0.baseDamageMax + 3 }
      else if upgradeType = 2 then
        (if c0.critChance < 50 then { c0 with critChance := c0.critChance + 5 } else c0)
      else
        (if c0.dodgeChance < 40 then { c0 with dodgeChance := c0.dodgeChance + 5 } else c0)
    ⟨none, { st with characters := updChar st.characters charId c' }⟩

/-! ### game_grantXP, source lines 1269-1296 -/

def game_grantXP (st : GameState) (ctx : GCtx)
    (charId : String) (xpAmount : Nat) : GResult :=
  if ¬ st.flags ("admin:" ++ ctx.caller) then ⟨some ("Access denied"), st⟩ else
  match st.characters charId with
  | none => ⟨some ("character not found"), st⟩
  | some c =>
    let c1 := { c with xp := u64add c.xp xpAmount }
    let xpForNextLevel := c1.level * 200
    let c' :=
      if xpForNextLevel ≤ c1.xp then
        { c1 with level := (c1.level + 1) % 65536,
                  xp := c1.xp - xpForNextLevel,
                  maxHp := c1.maxHp + 5,
                  currentHp := c1.maxHp + 5,
                  baseDamageMin := c1.baseDamageMin + 1,
                  baseDamageMax := c1.baseDamageMax + 2 }
      else c1
    ⟨none, { st with characters := updChar st.characters charId c' }⟩

/-! ### game_healCharacter, source lines 1299-1318 -/

def game_healCharacter (st : GameState) (ctx : GCtx)
    (charId : String) : GResult :=
  if st.paused then ⟨some ("Contract paused"), st⟩ else
  match st.characters charId with
  | none => ⟨some ("character not found"), st⟩
  | some c =>
    if ¬ (ctx.caller = c.owner) then ⟨some ("not owner"), st⟩ else
    let c' := { c with currentHp := c.maxHp }
    ⟨none, { st with characters := updChar st.characters charId c' }⟩

/-! ### game_finalizeBattle, source lines 1154-1194 -/

def game_finalizeBattle (st : GameState) (ctx : GCtx)
    (battleId : String) : GResult :=
  if st.paused then ⟨some ("Contract paused"), st⟩ else
  match st.battles battleId with
  | none => ⟨some ("battle missing"), st⟩
  | some b =>
    if ¬ b.isFinished then ⟨some ("not finished"), st⟩ else
    if b.winner = 0 then ⟨some ("no winner"), st⟩ else
    match st.characters b.player1Char, st.characters b.player2Char with
    | some c1, some c2 =>
      let c1a := if b.winner = 1 then { c1 with totalWins := c1.totalWins + 1 }
                 else { c1 with totalLosses := c1.totalLosses + 1 }
      let c2a := if b.winner = 1 then { c2 with totalLosses := c2.totalLosses + 1 }
                 else { c2 with totalWins := c2.totalWins + 1 }
      let c1b := { c1a with currentHp := c1a.maxHp }
      let c2b := { c2a with currentHp := c2a.maxHp }
      ⟨none, { st with
        characters := updChar (updChar st.characters b.player1Char c1b)
          b.player2Char c2b,
        counters := updCounter st.counters ("total_battles_finished")
          (st.counters ("total_battles_finished") + 1) }⟩
    | _, _ => ⟨some ("storage missing"), st⟩

/-! ### game_decideWildcard, source lines 1100-1151 -/

/-- Recording one player's wildcard decision and, once both are in,
    resolving the wildcard (type 0 with both accepting heals both sides
    by 50 HP capped at 1000000), source lines 1118-1148. -/
def wildcardResolve (isP1 : Prop) [Decidable isP1] (accept : Bool)
    (b : Battle) : Battle :=
  let b1 :=
    if isP1 then { b with wildcardPlayer1Decision := if accept then 1 else 0 }
    else { b with wildcardPlayer2Decision := if accept then 1 else 0 }
  if b1.wildcardPlayer1Decision ≠ -1 ∧ b1.wildcardPlayer2Decision ≠ -1 then
    let b15 :=
      if b1.wildcardPlayer1Decision = 1 ∧ b1.wildcardPlayer2Decision = 1 ∧
          b1.wildcardType = 0 then
        { b1 with
          player1Hp := if b1.player1Hp + 50 < 1000000 then b1.player1Hp + 50 else 1000000,
          player2Hp := if b1.player2Hp + 50 < 1000000 then b1.player2Hp + 50 else 1000000 }
      else b1
    { b15 with wildcardActive := false, wildcardPlayer1Decision := -1,
               wildcardPlayer2Decision := -1 }
  else b1

def game_decideWildcard (st : GameState) (ctx : GCtx)
    (battleId : String) (accept : Bool) (playerCharId : String) : GResult :=
  if st.paused then ⟨some ("Contract paused"), st⟩ else
  match st.battles battleId with
  | none => ⟨some ("battle missing"), st⟩
  | some b =>
    if ¬ b.wildcardActive then ⟨some ("no wildcard active"), st⟩ else
    if ¬ (ctx.timestamp ≤ b.wildcardDecisionDeadline) then
      ⟨some ("decision window expired"), st⟩ else
    let isP1 := playerCharId = b.player1Char
    let expectedOwner := if isP1 then b.player1Owner else b.player2Owner
    if ¬ (ctx.caller = expectedOwner) then ⟨some ("not owner"), st⟩ else
    let b2 := wildcardResolve isP1 accept b
    ⟨none, { st with battles := updBattle st.battles battleId b2 }⟩

/-! ### game_createEquipment, source lines 1337-1397 -/

def game_createEquipment (st : GameState) (ctx : GCtx)
    (equipmentId ownerAddr : String) (ty rarity : Nat) : GResult :=
  if st.paused then ⟨some ("Contract paused"), st⟩ else
  if ¬ st.flags ("admin:" ++ ctx.caller) then ⟨some ("Access denied"), st⟩ else
  match st.equips equipmentId with
  | some _ => ⟨some ("equipment exists"), st⟩
  | none =>
    let base : Equipment :=
      { equipmentId := equipmentId, owner := ownerAddr, type := ty,
        rarity := rarity, hpBonus := 0, damageMinBonus := 0,
        damageMaxBonus := 0, critBonus := 0, dodgeBonus := 0,
        durability := 100, currentDurability := 100,
        createdAt := ctx.timestamp }
    let e1 :=
      if rarity = 0 then
        { base with hpBonus := 10, damageMinBonus := 1, damageMaxBonus := 2,
                    critBonus := 2, dodgeBonus := 1, durability := 100 }
      else if rarity = 1 then
        { base with hpBonus := 25, damageMinBonus := 3, damageMaxBonus := 5,
                    critBonus := 5, dodgeBonus := 3, durability := 200 }
      else if rarity = 2 then
        { base with hpBonus := 50, damageMinBonus := 5, damageMaxBonus := 10,
                    critBonus := 10, dodgeBonus := 5, durability := 300 }
      else if rarity = 3 then
        { base with hpBonus := 100, damageMinBonus := 10, damageMaxBonus := 20,
                    critBonus := 15, dodgeBonus := 10, durability := 500 }
      else base
    let e2 := { e1 with currentDurability := e1.durability }
    ⟨none, { st with equips := updEquip st.equips equipmentId e2,
                     counters := updCounter st.counters ("equipment_count")
                       (st.counters ("equipment_count") + 1) }⟩

/-! ### game_equipItem, source lines 1400-1425 -/

def game_equipItem (st : GameState) (ctx : GCtx)
    (charId equipmentId : String) : GResult :=
  if st.paused then ⟨some ("Contract paused"), st⟩ else
  match st.characters charId, st.equips equipmentId with
  | some c, some e =>
    if ¬ (ctx.caller = c.owner) then ⟨some ("not character owner"), st⟩ else
    if ¬ (ctx.caller = e.owner) then ⟨some ("not equipment owner"), st⟩ else
    let c' :=
      if e.type = 0 then { c with weaponId := equipmentId }
      else if e.type = 1 then { c with armorId := equipmentId }
      else if e.type = 2 then { c with accessoryId := equipmentId }
      else c
    ⟨none, { st with characters := updChar st.characters charId c' }⟩
  | _, _ => ⟨some ("character or equipment not found"), st⟩

/-! ### game_learnSkill, source lines 1460-1498 -/

def game_learnSkill (st : GameState) (ctx : GCtx)
    (characterId : String) (skillId : Nat) : GResult :=
  if st.paused then ⟨some ("Contract paused"), st⟩ else
  if ¬ (1 ≤ skillId ∧ skillId ≤ 10) then ⟨some ("invalid skill"), st⟩ else
  match st.characters characterId with
  | none => ⟨some ("character not found"), st⟩
  | some c =>
    if ¬ (ctx.caller = c.owner) then ⟨some ("not character owner"), st⟩ else
    let learnedArray :=
      if 0 < c.learnedSkills.length then c.learnedSkills.splitOn (",") else []
    if learnedArray.any (fun s => s.toNat? = some skillId) then
      ⟨some ("skill already learned"), st⟩ else
    let requiredLevel := if skillId ≤ 3 then 1 else if skillId ≤ 6 then 5 else 10
    if ¬ (requiredLevel ≤ c.level) then ⟨some ("level too low for this skill"), st⟩ else
    let c' :=
      if 0 < c.learnedSkills.length then
        { c with learnedSkills := c.learnedSkills ++ "," ++ toString skillId }
      else { c with learnedSkills := toString skillId }
    ⟨none, { st with characters := updChar st.characters characterId c' }⟩

/-! ### game_equipSkill, source lines 1501-1543 -/

def game_equipSkill (st : GameState) (ctx : GCtx)
    (characterId : String) (skillId slot : Nat) : GResult :=
  if st.paused then ⟨some ("Contract paused"), st⟩ else
  if ¬ (1 ≤ slot ∧ slot ≤ 3) then ⟨some ("invalid slot"), st⟩ else
  match st.characters characterId with
  | none => ⟨some ("character not found"), st⟩
  | some c =>
    if ¬ (ctx.caller = c.owner) then ⟨some ("not character owner"), st⟩ else
    let learnedArray :=
      if 0 < c.learnedSkills.length then c.learnedSkills.splitOn (",") else []
    if skillId ≠ 0 ∧ ¬ learnedArray.any (fun s => s.toNat? = some skillId) then
      ⟨some ("skill not learned"), st⟩ else
    let c' :=
      if slot = 1 then { c with skill1 := skillId }
      else if slot = 2 then { c with skill2 := skillId }
      else { c with skill3 := skillId }
    ⟨none, { st with characters := updChar st.characters characterId c' }⟩

/-! ### game_executeTurn, source lines 713-1097 -/

/-- `getSkillCooldown`, source lines 1546-1558. -/
def getSkillCooldown (skillId : Nat) : Nat :=
  if skillId = 1 then 3 else if skillId = 2 then 4 else
  if skillId = 3 then 2 else if skillId = 4 then 5 else
  if skillId = 5 then 3 else if skillId = 6 then 4 else
  if skillId = 7 then 6 else if skillId = 8 then 5 else
  if skillId = 9 then 3 else if skillId = 10 then 4 else 0

/-- `getSkillEnergyCost`, source lines 1561-1573. -/
def getSkillEnergyCost (skillId : Nat) : Nat :=
  if skillId = 1 then 30 else if skillId = 2 then 40 else
  if skillId = 3 then 25 else if skillId = 4 then 50 else
  if skillId = 5 then 30 else if skillId = 6 then 40 else
  if skillId = 7 then 60 else if skillId = 8 then 50 else
  if skillId = 9 then 35 else if skillId = 10 then 45 else 0

/-- Per turn energy regeneration, source lines 921-926. -/
def regenEnergy (c : Character) : Character :=
  if c.currentEnergy < MAX_ENERGY then
    { c with currentEnergy :=
        if MAX_ENERGY < c.currentEnergy + ENERGY_PER_TURN then MAX_ENERGY
        else c.currentEnergy + ENERGY_PER_TURN }
  else c

/-- Result of the skill resolution phase. -/
structure SkillOut where
  attacker : Character
  battle : Battle
  used : Nat
  dmgMult : Nat
  forceCrit : Bool
  dodgeBon : Nat
deriving DecidableEq

/-- The per skill effect of a cast, source lines 820-905: the updated
    attacker, the updated battle, the damage multiplier, forced crit flag
    and dodge bonus.  `atk1` is the attacker after the energy deduction. -/
def skillEffect (isP1 : Bool) (equippedSkill : Nat) (atk1 : Character)
    (battle : Battle) : Character × Battle × Nat × Bool × Nat :=
  if equippedSkill = 1 then (atk1, battle, 150, false, 0)
  else if equippedSkill = 2 then
    let healAmount := atk1.maxHp * 30 / 100
    let newHp :=
      if atk1.maxHp < atk1.currentHp + healAmount then atk1.maxHp
      else atk1.currentHp + healAmount
    let atk2 := { atk1 with currentHp := newHp }
    let b2 :=
      if isP1 then { battle with player1Hp := newHp }
      else { battle with player2Hp := newHp }
    (atk2, b2, 100, false, 0)
  else if equippedSkill = 3 then
    (atk1,
     (if isP1 then
        { battle with
          player2StatusEffects := battle.player2StatusEffects ||| STATUS_POISON,
          player2StatusDuration := 3 }
      else
        { battle with
          player1StatusEffects := battle.player1StatusEffects ||| STATUS_POISON,
          player1StatusDuration := 3 }),
     100, false, 0)
  else if equippedSkill = 4 then
    (atk1,
     (if isP1 then
        { battle with
          player2StatusEffects := battle.player2StatusEffects ||| STATUS_STUN,
          player2StatusDuration := 1 }
      else
        { battle with
          player1StatusEffects := battle.player1StatusEffects ||| STATUS_STUN,
          player1StatusDuration := 1 }),
     100, false, 0)
  else if equippedSkill = 5 then
    (atk1,
     (if isP1 then
        { battle with
          player1StatusEffects := battle.player1StatusEffects ||| STATUS_SHIELD,
          player1StatusDuration := 2 }
      else
        { battle with
          player2StatusEffects := battle.player2StatusEffects ||| STATUS_SHIELD,
          player2StatusDuration := 2 }),
     100, false, 0)
  else if equippedSkill = 6 then
    (atk1,
     (if isP1 then
        { battle with
          player1StatusEffects := battle.player1StatusEffects ||| STATUS_RAGE,
          player1StatusDuration := 2 }
      else
        { battle with
          player2StatusEffects := battle.player2StatusEffects ||| STATUS_RAGE,
          player2StatusDuration := 2 }),
     100, false, 0)
  else if equippedSkill = 7 then (atk1, battle, 100, true, 0)
  else if equippedSkill = 8 then
    (atk1,
     (if isP1 then
        { battle with
          player1StatusEffects := battle.player1StatusEffects ||| STATUS_SHIELD,
          player1StatusDuration := 2 }
      else
        { battle with
          player2StatusEffects := battle.player2StatusEffects ||| STATUS_SHIELD,
          player2StatusDuration := 2 }),
     100, false, 50)
  else if equippedSkill = 9 then
    (atk1,
     (if isP1 then
        { battle with
          player2StatusEffects := battle.player2StatusEffects ||| STATUS_BURN,
          player2StatusDuration := 3 }
      else
        { battle with
          player1StatusEffects := battle.player1StatusEffects ||| STATUS_BURN,
          player1StatusDuration := 3 }),
     100, false, 0)
  else if equippedSkill = 10 then
    (atk1,
     (if isP1 then { battle with player2ComboCount := 0 }
      else { battle with player1ComboCount := 0 }),
     120, false, 0)
  else (atk1, battle, 100, false, 0)

/-- Setting the cast slot cooldown on the attacker side, source lines
    897-905. -/
def setSlotCooldown (isP1 : Bool) (skillSlot cooldown : Nat) (b : Battle) : Battle :=
  if isP1 then
    (if skillSlot = 1 then { b with player1Skill1Cooldown := cooldown }
     else if skillSlot = 2 then { b with player1Skill2Cooldown := cooldown }
     else { b with player1Skill3Cooldown := cooldown })
  else
    (if skillSlot = 1 then { b with player2Skill1Cooldown := cooldown }
     else if skillSlot = 2 then { b with player2Skill2Cooldown := cooldown }
     else { b with player2Skill3Cooldown := cooldown })

/-- Skill resolution, source lines 800-918: select the equipped skill of
    the chosen slot, check cooldown and energy, apply the fixed effect,
    set the cooldown. -/
def runSkillPhase (isP1 : Bool) (skillSlot : Nat) (atk : Character)
    (battle : Battle) : SkillOut :=
  if 1 ≤ skillSlot ∧ skillSlot ≤ 3 then
    let equippedSkill :=
      if skillSlot = 1 then atk.skill1
      else if skillSlot = 2 then atk.skill2 else atk.skill3
    if equippedSkill ≠ 0 then
      let currentCooldown :=
        if isP1 then
          (if skillSlot = 1 then battle.player1Skill1Cooldown
           else if skillSlot = 2 then battle.player1Skill2Cooldown
           else battle.player1Skill3Cooldown)
        else
          (if skillSlot = 1 then battle.player2Skill1Cooldown
           else if skillSlot = 2 then battle.player2Skill2Cooldown
           else battle.player2Skill3Cooldown)
      if currentCooldown = 0 then
        let energyCost := getSkillEnergyCost equippedSkill
        if energyCost ≤ atk.currentEnergy then
          let atk1 := { atk with currentEnergy := atk.currentEnergy - energyCost }
          let eff := skillEffect isP1 equippedSkill atk1 battle
          let b3 := setSlotCooldown isP1 skillSlot (getSkillCooldown equippedSkill) eff.2.1
          ⟨eff.1, b3, equippedSkill, eff.2.2.1, eff.2.2.2.1, eff.2.2.2.2⟩
        else ⟨atk, battle, 0, 100, false, 0⟩
      else ⟨atk, battle, 0, 100, false, 0⟩
    else ⟨atk, battle, 0, 100, false, 0⟩
  else ⟨atk, battle, 0, 100, false, 0⟩

/-- `hp > damage ? hp - damage : 0`, the saturating HP subtraction used
    at source lines 1010, 1020, 1036-1054. -/
def hpSub (hp damage : Nat) : Nat := if damage < hp then hp - damage else 0

/-- Status duration decrement for player 1 (source lines 1058-1063 and
    the stun branch 935-941). -/
def decDur1 (b : Battle) : Battle :=
  if 0 < b.player1StatusDuration then
    let d := b.player1StatusDuration - 1
    { b with player1StatusDuration := d,
             player1StatusEffects := if d = 0 then 0 else b.player1StatusEffects }
  else b

/-- Status duration decrement for player 2 (source lines 1064-1069 and
    the stun branch 942-948). -/
def decDur2 (b : Battle) : Battle :=
  if 0 < b.player2StatusDuration then
    let d := b.player2StatusDuration - 1
    { b with player2StatusDuration := d,
             player2StatusEffects := if d = 0 then 0 else b.player2StatusEffects }
  else b

/-- Skill cooldown decrement for both players, source lines 1075-1080. -/
def decCooldowns (b : Battle) : Battle :=
  { b with
    player1Skill1Cooldown := b.player1Skill1Cooldown - 1,
    player1Skill2Cooldown := b.player1Skill2Cooldown - 1,
    player1Skill3Cooldown := b.player1Skill3Cooldown - 1,
    player2Skill1Cooldown := b.player2Skill1Cooldown - 1,
    player2Skill2Cooldown := b.player2Skill2Cooldown - 1,
    player2Skill3Cooldown := b.player2Skill3Cooldown - 1 }

/-- Damage application and combo bookkeeping, source lines 1008-1027. -/
def applyDamage (isP1 : Bool) (b : Battle) (damage3 : Nat) (dodged : Prop)
    [Decidable dodged] : Battle :=
  if isP1 then
    { b with
      player2Hp := hpSub b.player2Hp damage3,
      player1ComboCount :=
        if 0 < damage3 ∧ ¬ dodged then
          (if b.player1ComboCount < 255 then b.player1ComboCount + 1 else 255)
        else 0,
      player2ComboCount :=
        if 0 < damage3 ∧ ¬ dodged then 0 else b.player2ComboCount }
  else
    { b with
      player1Hp := hpSub b.player1Hp damage3,
      player2ComboCount :=
        if 0 < damage3 ∧ ¬ dodged then
          (if b.player2ComboCount < 255 then b.player2ComboCount + 1 else 255)
        else 0,
      player1ComboCount :=
        if 0 < damage3 ∧ ¬ dodged then 0 else b.player1ComboCount }

/-- Poison and burn damage over time for both sides, source lines 1029-1055. -/
def applyDots (b4 : Battle) (c1 c2 : Character) : Battle :=
  let b5 :=
    if b4.player1StatusEffects &&& STATUS_POISON ≠ 0 then
      { b4 with player1Hp := hpSub b4.player1Hp (c1.maxHp / 20) }
    else b4
  let b6 :=
    if b5.player1StatusEffects &&& STATUS_BURN ≠ 0 then
      { b5 with player1Hp := hpSub b5.player1Hp (c1.maxHp * 8 / 100) }
    else b5
  let b7 :=
    if b6.player2StatusEffects &&& STATUS_POISON ≠ 0 then
      { b6 with player2Hp := hpSub b6.player2Hp (c2.maxHp / 20) }
    else b6
  if b7.player2StatusEffects &&& STATUS_BURN ≠ 0 then
    { b7 with player2Hp := hpSub b7.player2Hp (c2.maxHp * 8 / 100) }
  else b7

/-- The turn advance at source lines 952-955 and 1071-1073: increment the
    turn number and hand the turn over. -/
def turnBump (b : Battle) (ct : Nat) : Battle :=
  { b with turnNumber := b.turnNumber + 1, currentTurn := ct }

/-- Activating a rolled wildcard, source lines 746-755. -/
def wildcardRoll (b : Battle) (t d : Nat) : Battle :=
  { b with wildcardActive := true, wildcardType := t,
           wildcardDecisionDeadline := d, wildcardPlayer1Decision := -1,
           wildcardPlayer2Decision := -1 }

/-- Finish check, source lines 1086-1091. -/
def finishCheck (b : Battle) : Battle :=
  if b.player1Hp = 0 ∨ b.player2Hp = 0 then
    { b with isFinished := true, winner := if 0 < b.player1Hp then 1 else 2 }
  else b

/-- The damage resolution tail of a turn, source lines 959-1091: damage
    computation with equipment, status, skill and combo modifiers, dodge
    and defense, damage over time, duration and cooldown decrements, turn
    advance and the finish check.  u16 wraps are not modelled (stats stay
    far below 2^16); the roll values are exact. -/
def damagePhase (ctx : GCtx) (battle : Battle) (so : SkillOut)
    (c1 c2 atk0 def0 : Character)
    (aDamMin aDamMax aCrit dDodge : Nat) (isP1 : Bool) : Battle :=
  let attackerStatus := if isP1 then so.battle.player1StatusEffects
    else so.battle.player2StatusEffects
  let totalDamageMin := atk0.baseDamageMin + aDamMin
  let totalDamageMax := atk0.baseDamageMax + aDamMax
  let dmgRange := if totalDamageMin < totalDamageMax then totalDamageMax - totalDamageMin else 0
  let rollDamage := simple_random (u64add battle.turnNumber ctx.timestamp) 3 ctx.timestamp % (dmgRange + 1)
  let baseDamage0 := totalDamageMin + rollDamage
  let baseDamage1 := baseDamage0 + (atk0.level - 1) * 2
  let baseDamage2 :=
    if attackerStatus &&& STATUS_RAGE ≠ 0 then baseDamage1 + baseDamage1 / 2
    else baseDamage1
  let baseDamage3 :=
    if so.dmgMult ≠ 100 then baseDamage2 * so.dmgMult / 100 else baseDamage2
  let totalCritChance := atk0.critChance + aCrit
  let critRoll := simple_random (u64add battle.turnNumber ctx.timestamp) 4 ctx.timestamp % 100
  let damage0 :=
    if so.forceCrit ∨ critRoll < totalCritChance then baseDamage3 * 2
    else baseDamage3
  let attackerCombo := if isP1 then so.battle.player1ComboCount
    else so.battle.player2ComboCount
  let damage1 := if 3 ≤ attackerCombo then damage0 + damage0 / 5 else damage0
  let totalDodgeChance := def0.dodgeChance + dDodge + so.dodgeBon
  let dodgeRoll := simple_random (u64add battle.turnNumber ctx.timestamp) 6 ctx.timestamp % 100
  let dodged := dodgeRoll < totalDodgeChance
  let damage2 :=
    if dodged then 0
    else if def0.defense < damage1 then damage1 - def0.defense else 0
  let defenderStatus := if isP1 then so.battle.player2StatusEffects
    else so.battle.player1StatusEffects
  let damage3 :=
    if defenderStatus &&& STATUS_SHIELD ≠ 0 ∧ 0 < damage2 then
      damage2 - damage2 * 30 / 100
    else damage2
  let b4 := applyDamage isP1 so.battle damage3 dodged
  let b8 := applyDots b4 c1 c2
  let b9 := decDur2 (decDur1 b8)
  let b10 := turnBump b9 (if b9.currentTurn = 1 then 2 else 1)
  let b11 := decCooldowns b10
  finishCheck b11

def game_executeTurn (st : GameState) (ctx : GCtx)
    (battleId attackerCharId : String) (stance : Nat) (useSpecial : Bool)
    (skillSlot : Nat) : GResult :=
  if st.paused then ⟨some ("Contract paused"), st⟩ else
  match st.battles battleId with
  | none => ⟨some ("battle missing"), st⟩
  | some battle =>
    if battle.isFinished then ⟨some ("battle finished"), st⟩ else
    let isP1 := attackerCharId = battle.player1Char
    let expectedOwner := if isP1 then battle.player1Owner else battle.player2Owner
    if ¬ (ctx.caller = expectedOwner) then ⟨some ("not turn owner"), st⟩ else
    if ¬ ((isP1 ∧ battle.currentTurn = 1) ∨ (¬ isP1 ∧ battle.currentTurn = 2)) then
      ⟨some ("not your turn"), st⟩ else
    -- wildcard roll (source lines 742-756)
    let wildcardChance : Nat :=
      if isP1 ∧ attackerCharId = "Trickster" then 25 else 10
    let roll := simple_random (u64add battle.turnNumber battle.createdAt) 1 ctx.timestamp % 100
    if roll < wildcardChance ∧ ¬ battle.wildcardActive then
      let b' := wildcardRoll battle
        (simple_random battle.turnNumber 2 ctx.timestamp % 4)
        (ctx.timestamp + 10000)
      ⟨none, { st with battles := updBattle st.battles battleId b' }⟩
    else
    match st.characters battle.player1Char, st.characters battle.player2Char with
    | some c1, some c2 =>
      let atk0 := if isP1 then c1 else c2
      let def0 := if isP1 then c2 else c1
      -- equipment bonuses (source lines 768-798)
      let wOpt := if 0 < atk0.weaponId.length then st.equips atk0.weaponId else none
      let aOpt := if 0 < atk0.accessoryId.length then st.equips atk0.accessoryId else none
      let armOpt := if 0 < def0.armorId.length then st.equips def0.armorId else none
      let dAccOpt := if 0 < def0.accessoryId.length then st.equips def0.accessoryId else none
      let attackerDamageMinBonus := (wOpt.map Equipment.damageMinBonus).getD 0
      let attackerDamageMaxBonus := (wOpt.map Equipment.damageMaxBonus).getD 0
      let attackerCritBonus := (wOpt.map Equipment.critBonus).getD 0 +
        (aOpt.map Equipment.critBonus).getD 0
      let defenderDodgeBonus := (armOpt.map Equipment.dodgeBonus).getD 0 +
        (dAccOpt.map Equipment.dodgeBonus).getD 0
      -- skill phase (source lines 800-918), mid save of the attacker at 909-914
      let so := runSkillPhase isP1 skillSlot atk0 battle
      let attackerId := if isP1 then battle.player1Char else battle.player2Char
      let charsMid :=
        if so.used ≠ 0 then updChar st.characters attackerId so.attacker
        else st.characters
      -- energy regeneration (source lines 920-926)
      let c1a := if isP1 then so.attacker else c1
      let c2a := if isP1 then c2 else so.attacker
      let c1b := regenEnergy c1a
      let c2b := regenEnergy c2a
      -- stun check on the attacker (source lines 928-957): the stun path
      -- persists only the battle and the mid skill save, dropping the
      -- energy regeneration
      let attackerStatus := if isP1 then so.battle.player1StatusEffects
        else so.battle.player2StatusEffects
      if attackerStatus &&& STATUS_STUN ≠ 0 then
        let bs := if isP1 then decDur1 so.battle else decDur2 so.battle
        let bs2 := turnBump bs (if bs.currentTurn = 1 then 2 else 1)
        ⟨none, { st with characters := charsMid,
                         battles := updBattle st.battles battleId bs2 }⟩
      else
      -- damage resolution tail (source lines 959-1091)
      let b12 := damagePhase ctx battle so c1 c2 atk0 def0
        attackerDamageMinBonus attackerDamageMaxBonus attackerCritBonus
        defenderDodgeBonus isP1
      -- final character saves overwrite the mid save (source lines 1082-1084)
      let charsFin := updChar (updChar st.characters battle.player1Char c1b)
        battle.player2Char c2b
      ⟨none, { st with characters := charsFin,
                       battles := updBattle st.battles battleId b12 }⟩
    | _, _ => ⟨some ("storage missing"), st⟩

/-! ### Game invariants (claims C5 and C6) -/

/-- Character invariant: positive current HP bounded by max HP, energy
    bounded by 100. -/
def CharInv (c : Character) : Prop :=
  0 < c.currentHp ∧ c.currentHp ≤ c.maxHp ∧ c.currentEnergy ≤ 100

/-- Battle invariant: finished exactly when a winner in \x7b1,2\x7d is
    recorded; an unfinished battle has winner 0 and both HP nonzero. -/
def BattleInv (b : Battle) : Prop :=
  (b.isFinished = true ↔ (b.winner = 1 ∨ b.winner = 2)) ∧
  (b.isFinished = false → b.winner = 0 ∧ 0 < b.player1Hp ∧ 0 < b.player2Hp)

/-- Global invariant over the game storage. -/
def Inv (st : GameState) : Prop :=
  (∀ id c, st.characters id = some c → CharInv c) ∧
  (∀ id b, st.battles id = some b → BattleInv b)

/-- One step of the game contract: any successful call of one of its
    mutating entry points, with arbitrary caller, timestamp, arguments. -/
inductive GStep : GameState → GameState → Prop where
  | createCharacter (st : GameState) (ctx : GCtx) (id : String)
      (cls : Nat) (nm : String) (st' : GameState)
      (h : game_createCharacter st ctx id cls nm = ⟨none, st'⟩) : GStep st st'
  | createBattle (st : GameState) (ctx : GCtx) (bid c1 c2 : String)
      (ts : Nat) (st' : GameState)
      (h : game_createBattle st ctx bid c1 c2 ts = ⟨none, st'⟩) : GStep st st'
  | executeTurn (st : GameState) (ctx : GCtx) (bid aid : String)
      (stance : Nat) (sp : Bool) (slot : Nat) (st' : GameState)
      (h : game_executeTurn st ctx bid aid stance sp slot = ⟨none, st'⟩) : GStep st st'
  | decideWildcard (st : GameState) (ctx : GCtx) (bid : String)
      (accept : Bool) (pid : String) (st' : GameState)
      (h : game_decideWildcard st ctx bid accept pid = ⟨none, st'⟩) : GStep st st'
  | finalizeBattle (st : GameState) (ctx : GCtx) (bid : String) (st' : GameState)
      (h : game_finalizeBattle st ctx bid = ⟨none, st'⟩) : GStep st st'
  | upgradeCharacter (st : GameState) (ctx : GCtx) (id : String)
      (ty : Nat) (st' : GameState)
      (h : game_upgradeCharacter st ctx id ty = ⟨none, st'⟩) : GStep st st'
  | grantXP (st : GameState) (ctx : GCtx) (id : String) (amt : Nat) (st' : GameState)
      (h : game_grantXP st ctx id amt = ⟨none, st'⟩) : GStep st st'
  | healCharacter (st : GameState) (ctx : GCtx) (id : String) (st' : GameState)
      (h : game_healCharacter st ctx id = ⟨none, st'⟩) : GStep st st'
  | createEquipment (st : GameState) (ctx : GCtx) (eid own : String)
      (ty rar : Nat) (st' : GameState)
      (h : game_createEquipment st ctx eid own ty rar = ⟨none, st'⟩) : GStep st st'
  | equipItem (st : GameState) (ctx : GCtx) (cid eid : String) (st' : GameState)
      (h : game_equipItem st ctx cid eid = ⟨none, st'⟩) : GStep st st'
  | learnSkill (st : GameState) (ctx : GCtx) (cid : String) (sk : Nat) (st' : GameState)
      (h : game_learnSkill st ctx cid sk = ⟨none, st'⟩) : GStep st st'
  | equipSkill (st : GameState) (ctx : GCtx) (cid : String) (sk slot : Nat) (st' : GameState)
      (h : game_equipSkill st ctx cid sk slot = ⟨none, st'⟩) : GStep st st'

theorem charMap_upd {m : String → Option Character} {k : String} {c' : Character}
    (hm : ∀ id c, m id = some c → CharInv c) (hc' : CharInv c') :
    ∀ id c, updChar m k c' id = some c → CharInv c := by
  intro id c hidc
  unfold updChar at hidc
  split at hidc
  · cases hidc; exact hc'
  · exact hm id c hidc

theorem battleMap_upd {m : String → Option Battle} {k : String} {b' : Battle}
    (hm : ∀ id b, m id = some b → BattleInv b) (hb' : BattleInv b') :
    ∀ id b, updBattle m k b' id = some b → BattleInv b := by
  intro id b hidb
  unfold updBattle at hidb
  split at hidb
  · cases hidb; exact hb'
  · exact hm id b hidb

theorem updChar_same (m : String → Option Character) (k : String)
    (v : Character) : updChar m k v k = some v := by
  simp [updChar]

theorem createCharacter_inv (st : GameState) (ctx : GCtx) (id : String)
    (cls : Nat) (nm : String) (st' : GameState) (hInv : Inv st)
    (h : game_createCharacter st ctx id cls nm = ⟨none, st'⟩) : Inv st' := by
  obtain ⟨hc, hb⟩ := hInv
  cases hcs : st.characters id with
  | some c =>
    simp only [game_createCharacter, hcs] at h
    repeat' split at h
    all_goals injection h with h1 h2
    all_goals exact Option.noConfusion h1
  | none =>
    simp only [game_createCharacter, hcs] at h
    repeat' split at h
    all_goals injection h with h1 h2
    all_goals try exact Option.noConfusion h1
    all_goals subst h2
    all_goals exact ⟨charMap_upd hc
      (by unfold CharInv; refine ⟨?_, ?_, ?_⟩ <;> simp [MAX_ENERGY]), hb⟩

theorem createBattle_inv (st : GameState) (ctx : GCtx) (bid c1id c2id : String)
    (ts : Nat) (st' : GameState) (hInv : Inv st)
    (h : game_createBattle st ctx bid c1id c2id ts = ⟨none, st'⟩) : Inv st' := by
  obtain ⟨hc, hb⟩ := hInv
  cases hbs : st.battles bid with
  | some b =>
    simp only [game_createBattle, hbs] at h
    repeat' split at h
    all_goals injection h with h1 h2
    all_goals exact Option.noConfusion h1
  | none =>
    cases hc1s : st.characters c1id with
    | none =>
      simp only [game_createBattle, hbs, hc1s] at h
      repeat' split at h
      all_goals injection h with h1 h2
      all_goals exact Option.noConfusion h1
    | some c1 =>
      cases hc2s : st.characters c2id with
      | none =>
        simp only [game_createBattle, hbs, hc1s, hc2s] at h
        repeat' split at h
        all_goals injection h with h1 h2
        all_goals exact Option.noConfusion h1
      | some c2 =>
        simp only [game_createBattle, hbs, hc1s, hc2s] at h
        repeat' split at h
        all_goals injection h with h1 h2
        all_goals try exact Option.noConfusion h1
        all_goals subst h2
        refine ⟨hc, battleMap_upd hb ?_⟩
        obtain ⟨ha1, ha2, -⟩ := hc _ _ hc1s
        obtain ⟨hb1, hb2, -⟩ := hc _ _ hc2s
        constructor
        · simp
        · intro
          refine ⟨rfl, ?_, ?_⟩ <;> (try simp) <;> omega

theorem upgradeCharacter_inv (st : GameState) (ctx : GCtx) (id : String)
    (ty : Nat) (st' : GameState) (hInv : Inv st)
    (h : game_upgradeCharacter st ctx id ty = ⟨none, st'⟩) : Inv st' := by
  obtain ⟨hc, hb⟩ := hInv
  cases hcs : st.characters id with
  | none =>
    simp only [game_upgradeCharacter, hcs] at h
    repeat' split at h
    all_goals injection h with h1 h2
    all_goals exact Option.noConfusion h1
  | some c =>
    simp only [game_upgradeCharacter, hcs] at h
    repeat' split at h
    all_goals injection h with h1 h2
    all_goals try exact Option.noConfusion h1
    all_goals subst h2
    all_goals refine ⟨charMap_upd hc ?_, hb⟩
    all_goals obtain ⟨hx, hy, hz⟩ := hc _ _ hcs
    all_goals unfold CharInv
    all_goals refine ⟨?_, ?_, ?_⟩ <;> (try simp) <;> omega

theorem grantXP_inv (st : GameState) (ctx : GCtx) (id : String)
    (amt : Nat) (st' : GameState) (hInv : Inv st)
    (h : game_grantXP st ctx id amt = ⟨none, st'⟩) : Inv st' := by
  obtain ⟨hc, hb⟩ := hInv
  cases hcs : st.characters id with
  | none =>
    simp only [game_grantXP, hcs] at h
    repeat' split at h
    all_goals injection h with h1 h2
    all_goals exact Option.noConfusion h1
  | some c =>
    simp only [game_grantXP, hcs] at h
    repeat' split at h
    all_goals injection h with h1 h2
    all_goals try exact Option.noConfusion h1
    all_goals subst h2
    all_goals refine ⟨charMap_upd hc ?_, hb⟩
    all_goals obtain ⟨hx, hy, hz⟩ := hc _ _ hcs
    all_goals unfold CharInv
    all_goals refine ⟨?_, ?_, ?_⟩ <;> (try simp) <;> omega

theorem healCharacter_inv (st : GameState) (ctx : GCtx) (id : String)
    (st' : GameState) (hInv : Inv st)
    (h : game_healCharacter st ctx id = ⟨none, st'⟩) : Inv st' := by
  obtain ⟨hc, hb⟩ := hInv
  cases hcs : st.characters id with
  | none =>
    simp only [game_healCharacter, hcs] at h
    repeat' split at h
    all_goals injection h with h1 h2
    all_goals exact Option.noConfusion h1
  | some c =>
    simp only [game_healCharacter, hcs] at h
    repeat' split at h
    all_goals injection h with h1 h2
    all_goals try exact Option.noConfusion h1
    all_goals subst h2
    refine ⟨charMap_upd hc ?_, hb⟩
    obtain ⟨hx, hy, hz⟩ := hc _ _ hcs
    unfold CharInv
    refine ⟨?_, ?_, ?_⟩ <;> (try simp) <;> omega

theorem finalizeBattle_inv (st : GameState) (ctx : GCtx) (bid : String)
    (st' : GameState) (hInv : Inv st)
    (h : game_finalizeBattle st ctx bid = ⟨none, st'⟩) : Inv st' := by
  obtain ⟨hc, hb⟩ := hInv
  cases hbs : st.battles bid with
  | none =>
    simp only [game_finalizeBattle, hbs] at h
    repeat' split at h
    all_goals injection h with h1 h2
    all_goals exact Option.noConfusion h1
  | some b =>
    cases hc1s : st.characters b.player1Char with
    | none =>
      simp only [game_finalizeBattle, hbs, hc1s] at h
      repeat' split at h
      all_goals injection h with h1 h2
      all_goals exact Option.noConfusion h1
    | some c1 =>
      cases hc2s : st.characters b.player2Char with
      | none =>
        simp only [game_finalizeBattle, hbs, hc1s, hc2s] at h
        repeat' split at h
        all_goals injection h with h1 h2
        all_goals exact Option.noConfusion h1
      | some c2 =>
        simp only [game_finalizeBattle, hbs, hc1s, hc2s] at h
        repeat' split at h
        all_goals injection h with h1 h2
        all_goals try exact Option.noConfusion h1
        all_goals subst h2
        all_goals obtain ⟨h11, h12, h13⟩ := hc _ _ hc1s
        all_goals obtain ⟨h21, h22, h23⟩ := hc _ _ hc2s
        all_goals refine ⟨charMap_upd (charMap_upd hc ?_) ?_, hb⟩
        all_goals unfold CharInv
        all_goals refine ⟨?_, ?_, ?_⟩ <;> (try simp) <;> omega

theorem createEquipment_inv (st : GameState) (ctx : GCtx) (eid own : String)
    (ty rar : Nat) (st' : GameState) (hInv : Inv st)
    (h : game_createEquipment st ctx eid own ty rar = ⟨none, st'⟩) : Inv st' := by
  obtain ⟨hc, hb⟩ := hInv
  cases hes : st.equips eid with
  | some e =>
    simp only [game_createEquipment, hes] at h
    repeat' split at h
    all_goals injection h with h1 h2
    all_goals exact Option.noConfusion h1
  | none =>
    simp only [game_createEquipment, hes] at h
    repeat' split at h
    all_goals injection h with h1 h2
    all_goals try exact Option.noConfusion h1
    all_goals subst h2
    all_goals exact ⟨hc, hb⟩

theorem equipItem_inv (st : GameState) (ctx : GCtx) (cid eid : String)
    (st' : GameState) (hInv : Inv st)
    (h : game_equipItem st ctx cid eid = ⟨none, st'⟩) : Inv st' := by
  obtain ⟨hc, hb⟩ := hInv
  cases hcs : st.characters cid with
  | none =>
    simp only [game_equipItem, hcs] at h
    repeat' split at h
    all_goals injection h with h1 h2
    all_goals exact Option.noConfusion h1
  | some c =>
    cases hes : st.equips eid with
    | none =>
      simp only [game_equipItem, hcs, hes] at h
      repeat' split at h
      all_goals injection h with h1 h2
      all_goals exact Option.noConfusion h1
    | some e =>
      simp only [game_equipItem, hcs, hes] at h
      repeat' split at h
      all_goals injection h with h1 h2
      all_goals try exact Option.noConfusion h1
      all_goals subst h2
      all_goals refine ⟨charMap_upd hc ?_, hb⟩
      all_goals obtain ⟨hx, hy, hz⟩ := hc _ _ hcs
      all_goals unfold CharInv
      all_goals refine ⟨?_, ?_, ?_⟩ <;> (try simp) <;> omega

theorem learnSkill_inv (st : GameState) (ctx : GCtx) (cid : String)
    (sk : Nat) (st' : GameState) (hInv : Inv st)
    (h : game_learnSkill st ctx cid sk = ⟨none, st'⟩) : Inv st' := by
  obtain ⟨hc, hb⟩ := hInv
  cases hcs : st.characters cid with
  | none =>
    simp only [game_learnSkill, hcs] at h
    repeat' split at h
    all_goals injection h with h1 h2
    all_goals exact Option.noConfusion h1
  | some c =>
    simp only [game_learnSkill, hcs] at h
    repeat' split at h
    all_goals injection h with h1 h2
    all_goals try exact Option.noConfusion h1
    all_goals subst h2
    all_goals refine ⟨charMap_upd hc ?_, hb⟩
    all_goals obtain ⟨hx, hy, hz⟩ := hc _ _ hcs
    all_goals unfold CharInv
    all_goals refine ⟨?_, ?_, ?_⟩ <;> (try simp) <;> omega

theorem equipSkill_inv (st : GameState) (ctx : GCtx) (cid : String)
    (sk slot : Nat) (st' : GameState) (hInv : Inv st)
    (h : game_equipSkill st ctx cid sk slot = ⟨none, st'⟩) : Inv st' := by
  obtain ⟨hc, hb⟩ := hInv
  cases hcs : st.characters cid with
  | none =>
    simp only [game_equipSkill, hcs] at h
    repeat' split at h
    all_goals injection h with h1 h2
    all_goals exact Option.noConfusion h1
  | some c =>
    simp only [game_equipSkill, hcs] at h
    repeat' split at h
    all_goals injection h with h1 h2
    all_goals try exact Option.noConfusion h1
    all_goals subst h2
    all_goals refine ⟨charMap_upd hc ?_, hb⟩
    all_goals obtain ⟨hx, hy, hz⟩ := hc _ _ hcs
    all_goals unfold CharInv
    all_goals refine ⟨?_, ?_, ?_⟩ <;> (try simp) <;> omega

theorem regenEnergy_inv (c : Character) (h : CharInv c) :
    CharInv (regenEnergy c) := by
  obtain ⟨h1, h2, h3⟩ := h
  simp only [regenEnergy, CharInv, MAX_ENERGY, ENERGY_PER_TURN]
  repeat' split
  all_goals refine ⟨?_, ?_, ?_⟩ <;> (try simp) <;> omega

theorem skillEffect_attacker_inv (isP1 : Bool) (sk : Nat) (a : Character)
    (b : Battle) (h : CharInv a) : CharInv (skillEffect isP1 sk a b).1 := by
  obtain ⟨h1, h2, h3⟩ := h
  unfold CharInv
  by_cases e1 : sk = 1
  · simp [skillEffect, e1]
    omega
  by_cases e2 : sk = 2
  · simp [skillEffect, e2]
    split_ifs <;> omega
  by_cases e3 : sk = 3
  · simp [skillEffect, e3]
    omega
  by_cases e4 : sk = 4
  · simp [skillEffect, e4]
    omega
  by_cases e5 : sk = 5
  · simp [skillEffect, e5]
    omega
  by_cases e6 : sk = 6
  · simp [skillEffect, e6]
    omega
  by_cases e7 : sk = 7
  · simp [skillEffect, e7]
    omega
  by_cases e8 : sk = 8
  · simp [skillEffect, e8]
    omega
  by_cases e9 : sk = 9
  · simp [skillEffect, e9]
    omega
  by_cases e10 : sk = 10
  · simp [skillEffect, e10]
    omega
  simp [skillEffect, e1, e2, e3, e4, e5, e6, e7, e8, e9, e10]
  omega

theorem skillEffect_fin_win (isP1 : Bool) (sk : Nat) (a : Character)
    (b : Battle) :
    (skillEffect isP1 sk a b).2.1.isFinished = b.isFinished ∧
    (skillEffect isP1 sk a b).2.1.winner = b.winner := by
  by_cases e1 : sk = 1
  · simp [skillEffect, e1]
  by_cases e2 : sk = 2
  · simp [skillEffect, e2, apply_ite]
  by_cases e3 : sk = 3
  · simp [skillEffect, e3, apply_ite]
  by_cases e4 : sk = 4
  · simp [skillEffect, e4, apply_ite]
  by_cases e5 : sk = 5
  · simp [skillEffect, e5, apply_ite]
  by_cases e6 : sk = 6
  · simp [skillEffect, e6, apply_ite]
  by_cases e7 : sk = 7
  · simp [skillEffect, e7]
  by_cases e8 : sk = 8
  · simp [skillEffect, e8, apply_ite]
  by_cases e9 : sk = 9
  · simp [skillEffect, e9, apply_ite]
  by_cases e10 : sk = 10
  · simp [skillEffect, e10, apply_ite]
  simp [skillEffect, e1, e2, e3, e4, e5, e6, e7, e8, e9, e10]

theorem skillEffect_isFinished (isP1 : Bool) (sk : Nat) (a : Character)
    (b : Battle) : (skillEffect isP1 sk a b).2.1.isFinished = b.isFinished :=
  (skillEffect_fin_win isP1 sk a b).1

theorem skillEffect_winner (isP1 : Bool) (sk : Nat) (a : Character)
    (b : Battle) : (skillEffect isP1 sk a b).2.1.winner = b.winner :=
  (skillEffect_fin_win isP1 sk a b).2

theorem skillEffect_hp (isP1 : Bool) (sk : Nat) (a : Character) (b : Battle)
    (h1 : 0 < a.currentHp) (h2 : a.currentHp ≤ a.maxHp) :
    ((skillEffect isP1 sk a b).2.1.player1Hp = b.player1Hp ∨
      0 < (skillEffect isP1 sk a b).2.1.player1Hp) ∧
    ((skillEffect isP1 sk a b).2.1.player2Hp = b.player2Hp ∨
      0 < (skillEffect isP1 sk a b).2.1.player2Hp) := by
  by_cases e1 : sk = 1
  · constructor <;> left <;> simp [skillEffect, e1]
  by_cases e2 : sk = 2
  · cases isP1
    · refine ⟨Or.inl ?_, Or.inr ?_⟩
      · simp [skillEffect, e2]
      · simp [skillEffect, e2]
        split <;> omega
    · refine ⟨Or.inr ?_, Or.inl ?_⟩
      · simp [skillEffect, e2]
        split <;> omega
      · simp [skillEffect, e2]
  by_cases e3 : sk = 3
  · constructor <;> left <;> simp [skillEffect, e3, apply_ite]
  by_cases e4 : sk = 4
  · constructor <;> left <;> simp [skillEffect, e4, apply_ite]
  by_cases e5 : sk = 5
  · constructor <;> left <;> simp [skillEffect, e5, apply_ite]
  by_cases e6 : sk = 6
  · constructor <;> left <;> simp [skillEffect, e6, apply_ite]
  by_cases e7 : sk = 7
  · constructor <;> left <;> simp [skillEffect, e7]
  by_cases e8 : sk = 8
  · constructor <;> left <;> simp [skillEffect, e8, apply_ite]
  by_cases e9 : sk = 9
  · constructor <;> left <;> simp [skillEffect, e9, apply_ite]
  by_cases e10 : sk = 10
  · constructor <;> left <;> simp [skillEffect, e10, apply_ite]
  constructor <;> left <;>
    simp [skillEffect, e1, e2, e3, e4, e5, e6, e7, e8, e9, e10]

theorem setSlotCooldown_isFinished (isP1 : Bool) (slot cd : Nat) (b : Battle) :
    (setSlotCooldown isP1 slot cd b).isFinished = b.isFinished := by
  simp only [setSlotCooldown]
  repeat' split
  all_goals simp

theorem setSlotCooldown_winner (isP1 : Bool) (slot cd : Nat) (b : Battle) :
    (setSlotCooldown isP1 slot cd b).winner = b.winner := by
  simp only [setSlotCooldown]
  repeat' split
  all_goals simp

theorem setSlotCooldown_hp1 (isP1 : Bool) (slot cd : Nat) (b : Battle) :
    (setSlotCooldown isP1 slot cd b).player1Hp = b.player1Hp := by
  simp only [setSlotCooldown]
  repeat' split
  all_goals simp

theorem setSlotCooldown_hp2 (isP1 : Bool) (slot cd : Nat) (b : Battle) :
    (setSlotCooldown isP1 slot cd b).player2Hp = b.player2Hp := by
  simp only [setSlotCooldown]
  repeat' split
  all_goals simp

theorem runSkillPhase_attacker_inv (isP1 : Bool) (slot : Nat)
    (atk : Character) (b : Battle) (h : CharInv atk) :
    CharInv (runSkillPhase isP1 slot atk b).attacker := by
  obtain ⟨h1, h2, h3⟩ := h
  simp only [runSkillPhase]
  repeat' split
  all_goals try exact ⟨h1, h2, h3⟩
  all_goals exact skillEffect_attacker_inv _ _ _ _ ⟨h1, h2, by simp; omega⟩

theorem runSkillPhase_isFinished (isP1 : Bool) (slot : Nat)
    (atk : Character) (b : Battle) :
    (runSkillPhase isP1 slot atk b).battle.isFinished = b.isFinished := by
  simp only [runSkillPhase]
  repeat' split
  all_goals simp [setSlotCooldown_isFinished, skillEffect_isFinished]

theorem runSkillPhase_winner (isP1 : Bool) (slot : Nat)
    (atk : Character) (b : Battle) :
    (runSkillPhase isP1 slot atk b).battle.winner = b.winner := by
  simp only [runSkillPhase]
  repeat' split
  all_goals simp [setSlotCooldown_winner, skillEffect_winner]

theorem runSkillPhase_succ_hp (isP1 : Bool) (slot sk cd : Nat)
    (a : Character) (b : Battle)
    (h1 : 0 < a.currentHp) (h2 : a.currentHp ≤ a.maxHp) :
    ((setSlotCooldown isP1 slot cd (skillEffect isP1 sk a b).2.1).player1Hp
        = b.player1Hp ∨
      0 < (setSlotCooldown isP1 slot cd (skillEffect isP1 sk a b).2.1).player1Hp) ∧
    ((setSlotCooldown isP1 slot cd (skillEffect isP1 sk a b).2.1).player2Hp
        = b.player2Hp ∨
      0 < (setSlotCooldown isP1 slot cd (skillEffect isP1 sk a b).2.1).player2Hp) := by
  have hse := skillEffect_hp isP1 sk a b h1 h2
  rw [setSlotCooldown_hp1, setSlotCooldown_hp2]
  exact hse

theorem runSkillPhase_hp (isP1 : Bool) (slot : Nat)
    (atk : Character) (b : Battle) (h : CharInv atk) :
    ((runSkillPhase isP1 slot atk b).battle.player1Hp = b.player1Hp ∨
      0 < (runSkillPhase isP1 slot atk b).battle.player1Hp) ∧
    ((runSkillPhase isP1 slot atk b).battle.player2Hp = b.player2Hp ∨
      0 < (runSkillPhase isP1 slot atk b).battle.player2Hp) := by
  obtain ⟨h1, h2, h3⟩ := h
  simp only [runSkillPhase]
  repeat' split
  all_goals try exact ⟨Or.inl rfl, Or.inl rfl⟩
  all_goals exact runSkillPhase_succ_hp _ _ _ _ _ _ h1 h2

theorem applyDamage_isFinished (isP1 : Bool) (b : Battle) (d : Nat)
    (dg : Prop) [Decidable dg] :
    (applyDamage isP1 b d dg).isFinished = b.isFinished := by
  unfold applyDamage
  split <;> simp

theorem applyDamage_winner (isP1 : Bool) (b : Battle) (d : Nat)
    (dg : Prop) [Decidable dg] :
    (applyDamage isP1 b d dg).winner = b.winner := by
  unfold applyDamage
  split <;> simp

theorem applyDots_isFinished (b : Battle) (c1 c2 : Character) :
    (applyDots b c1 c2).isFinished = b.isFinished := by
  simp only [applyDots]
  repeat' split
  all_goals simp

theorem applyDots_winner (b : Battle) (c1 c2 : Character) :
    (applyDots b c1 c2).winner = b.winner := by
  simp only [applyDots]
  repeat' split
  all_goals simp

theorem decDur1_isFinished (b : Battle) : (decDur1 b).isFinished = b.isFinished := by
  simp only [decDur1]
  split <;> simp

theorem decDur1_winner (b : Battle) : (decDur1 b).winner = b.winner := by
  simp only [decDur1]
  split <;> simp

theorem decDur1_hp1 (b : Battle) : (decDur1 b).player1Hp = b.player1Hp := by
  simp only [decDur1]
  split <;> simp

theorem decDur1_hp2 (b : Battle) : (decDur1 b).player2Hp = b.player2Hp := by
  simp only [decDur1]
  split <;> simp

theorem decDur2_isFinished (b : Battle) : (decDur2 b).isFinished = b.isFinished := by
  simp only [decDur2]
  split <;> simp

theorem decDur2_winner (b : Battle) : (decDur2 b).winner = b.winner := by
  simp only [decDur2]
  split <;> simp

theorem decDur2_hp1 (b : Battle) : (decDur2 b).player1Hp = b.player1Hp := by
  simp only [decDur2]
  split <;> simp

theorem decDur2_hp2 (b : Battle) : (decDur2 b).player2Hp = b.player2Hp := by
  simp only [decDur2]
  split <;> simp

theorem decCooldowns_isFinished (b : Battle) :
    (decCooldowns b).isFinished = b.isFinished := rfl

theorem decCooldowns_winner (b : Battle) : (decCooldowns b).winner = b.winner := rfl

theorem finishCheck_inv (b : Battle) (hf : b.isFinished = false)
    (hw : b.winner = 0) :
    BattleInv (finishCheck b) ∧
    ((finishCheck b).isFinished = true ↔
      ((finishCheck b).player1Hp = 0 ∨ (finishCheck b).player2Hp = 0)) := by
  unfold finishCheck BattleInv
  split
  · rename_i hz
    refine ⟨⟨?_, ?_⟩, ?_⟩
    · simp
      omega
    · simp
    · simpa using hz
  · rename_i hz
    refine ⟨⟨?_, ?_⟩, ?_⟩
    · simp [hf, hw]
    · intro
      push_neg at hz
      exact ⟨hw, by omega, by omega⟩
    · simp [hf]
      push_neg at hz
      omega

theorem wildcardResolve_inv (p : Prop) [Decidable p] (a : Bool) (b : Battle)
    (hb : BattleInv b) : BattleInv (wildcardResolve p a b) := by
  obtain ⟨hb1, hb2⟩ := hb
  unfold BattleInv
  by_cases hp : p <;> by_cases ha : a = true <;>
    simp only [wildcardResolve, hp, ha, if_true, if_false, iff_true,
      if_pos, not_false_iff] <;>
    split_ifs <;>
    simp_all <;>
    (try constructor) <;>
    (intro hf; have := hb2 hf; omega)

theorem decideWildcard_inv (st : GameState) (ctx : GCtx) (bid : String)
    (accept : Bool) (pid : String) (st' : GameState) (hInv : Inv st)
    (h : game_decideWildcard st ctx bid accept pid = ⟨none, st'⟩) : Inv st' := by
  obtain ⟨hc, hb⟩ := hInv
  cases hbs : st.battles bid with
  | none =>
    simp only [game_decideWildcard, hbs] at h
    repeat' split at h
    all_goals injection h with h1 h2
    all_goals exact Option.noConfusion h1
  | some b =>
    simp only [game_decideWildcard, hbs] at h
    repeat' split at h
    all_goals injection h with h1 h2
    all_goals try exact Option.noConfusion h1
    all_goals subst h2
    all_goals exact ⟨hc, battleMap_upd hb (wildcardResolve_inv _ accept b (hb _ _ hbs))⟩

theorem damagePhase_inv (ctx : GCtx) (battle : Battle) (so : SkillOut)
    (c1 c2 atk0 def0 : Character) (a1 a2 a3 a4 : Nat) (isP1 : Bool)
    (hf : so.battle.isFinished = false) (hw : so.battle.winner = 0) :
    BattleInv (damagePhase ctx battle so c1 c2 atk0 def0 a1 a2 a3 a4 isP1) ∧
    ((damagePhase ctx battle so c1 c2 atk0 def0 a1 a2 a3 a4 isP1).isFinished = true ↔
      ((damagePhase ctx battle so c1 c2 atk0 def0 a1 a2 a3 a4 isP1).player1Hp = 0 ∨
       (damagePhase ctx battle so c1 c2 atk0 def0 a1 a2 a3 a4 isP1).player2Hp = 0)) := by
  simp only [damagePhase]
  apply finishCheck_inv
  · simp [turnBump, decCooldowns_isFinished, decDur2_isFinished,
      decDur1_isFinished, applyDots_isFinished, applyDamage_isFinished, hf]
  · simp [turnBump, decCooldowns_winner, decDur2_winner, decDur1_winner,
      applyDots_winner, applyDamage_winner, hw]

theorem updBattle_same (m : String → Option Battle) (k : String) (v : Battle) :
    updBattle m k v k = some v := by
  simp [updBattle]

theorem updBattle_look {m : String → Option Battle} {k : String} {v : Battle}
    {P : Battle → Prop} (hv : P v) :
    ∀ b, updBattle m k v k = some b → P b := by
  intro b hb
  rw [updBattle_same] at hb
  cases hb
  exact hv

theorem battleInv_wildcard (battle : Battle) (t d : Nat)
    (hfin : battle.isFinished = false) (hw : battle.winner = 0)
    (h1 : 0 < battle.player1Hp) (h2 : 0 < battle.player2Hp) :
    BattleInv (wildcardRoll battle t d) ∧
    ((wildcardRoll battle t d).isFinished = true ↔
      ((wildcardRoll battle t d).player1Hp = 0 ∨
       (wildcardRoll battle t d).player2Hp = 0)) := by
  refine ⟨⟨?_, ?_⟩, ?_⟩ <;> simp [wildcardRoll, hfin, hw] <;> omega

theorem battleInv_stun_of (b0 : Battle) (ct : Nat)
    (hf : b0.isFinished = false ∧ b0.winner = 0 ∧
      0 < b0.player1Hp ∧ 0 < b0.player2Hp) :
    BattleInv (turnBump b0 ct) ∧
    ((turnBump b0 ct).isFinished = true ↔
      ((turnBump b0 ct).player1Hp = 0 ∨ (turnBump b0 ct).player2Hp = 0)) := by
  obtain ⟨hfin, hw, h1, h2⟩ := hf
  refine ⟨⟨?_, ?_⟩, ?_⟩ <;> simp [turnBump, hfin, hw] <;> omega

theorem decDur1_runSkill_facts (isP1v : Bool) (slot : Nat) (atk : Character)
    (battle : Battle) (hCI : CharInv atk) (hfin : battle.isFinished = false)
    (hw : battle.winner = 0) (h1 : 0 < battle.player1Hp)
    (h2 : 0 < battle.player2Hp) :
    (decDur1 (runSkillPhase isP1v slot atk battle).battle).isFinished = false ∧
    (decDur1 (runSkillPhase isP1v slot atk battle).battle).winner = 0 ∧
    0 < (decDur1 (runSkillPhase isP1v slot atk battle).battle).player1Hp ∧
    0 < (decDur1 (runSkillPhase isP1v slot atk battle).battle).player2Hp := by
  refine ⟨?_, ?_, ?_, ?_⟩
  · rw [decDur1_isFinished, runSkillPhase_isFinished]
    exact hfin
  · rw [decDur1_winner, runSkillPhase_winner]
    exact hw
  · rw [decDur1_hp1]
    rcases (runSkillPhase_hp isP1v slot atk battle hCI).1 with he | hpos
    · rw [he]
      exact h1
    · exact hpos
  · rw [decDur1_hp2]
    rcases (runSkillPhase_hp isP1v slot atk battle hCI).2 with he | hpos
    · rw [he]
      exact h2
    · exact hpos

theorem decDur2_runSkill_facts (isP1v : Bool) (slot : Nat) (atk : Character)
    (battle : Battle) (hCI : CharInv atk) (hfin : battle.isFinished = false)
    (hw : battle.winner = 0) (h1 : 0 < battle.player1Hp)
    (h2 : 0 < battle.player2Hp) :
    (decDur2 (runSkillPhase isP1v slot atk battle).battle).isFinished = false ∧
    (decDur2 (runSkillPhase isP1v slot atk battle).battle).winner = 0 ∧
    0 < (decDur2 (runSkillPhase isP1v slot atk battle).battle).player1Hp ∧
    0 < (decDur2 (runSkillPhase isP1v slot atk battle).battle).player2Hp := by
  refine ⟨?_, ?_, ?_, ?_⟩
  · rw [decDur2_isFinished, runSkillPhase_isFinished]
    exact hfin
  · rw [decDur2_winner, runSkillPhase_winner]
    exact hw
  · rw [decDur2_hp1]
    rcases (runSkillPhase_hp isP1v slot atk battle hCI).1 with he | hpos
    · rw [he]
      exact h1
    · exact hpos
  · rw [decDur2_hp2]
    rcases (runSkillPhase_hp isP1v slot atk battle hCI).2 with he | hpos
    · rw [he]
      exact h2
    · exact hpos

section

attribute [local irreducible] updChar updBattle regenEnergy runSkillPhase
attribute [local irreducible] decDur1 decDur2 turnBump wildcardRoll damagePhase

set_option maxHeartbeats 3200000 in
theorem executeTurn_inv (st : GameState) (ctx : GCtx) (bid aid : String)
    (stance : Nat) (sp : Bool) (slot : Nat) (st' : GameState) (hInv : Inv st)
    (h : game_executeTurn st ctx bid aid stance sp slot = ⟨none, st'⟩) :
    Inv st' ∧
    ∀ b', st'.battles bid = some b' →
      (b'.isFinished = true ↔ (b'.player1Hp = 0 ∨ b'.player2Hp = 0)) := by
  obtain ⟨hc, hb⟩ := hInv
  cases hbs : st.battles bid with
  | none =>
    simp only [game_executeTurn, hbs] at h
    repeat' split at h
    all_goals injection h with h1 h2
    all_goals exact Option.noConfusion h1
  | some battle =>
    cases hfin : battle.isFinished with
    | true =>
      simp [game_executeTurn, hbs, hfin] at h
      all_goals split at h
      all_goals injection h with h1 h2
      all_goals exact Option.noConfusion h1
    | false =>
      obtain ⟨hB1, hB2⟩ := hb bid battle hbs
      obtain ⟨hw, hhp1, hhp2⟩ := hB2 hfin
      by_cases hP : aid = battle.player1Char
      all_goals cases hc1 : st.characters battle.player1Char with
      | none =>
        simp [game_executeTurn, hbs, hc1, hP] at h
        repeat' split at h
        all_goals injection h with h1 h2
        all_goals try exact Option.noConfusion h1
        all_goals subst h2
        all_goals refine ⟨⟨hc, battleMap_upd hb ?_⟩, updBattle_look ?_⟩
        all_goals first
          | exact (battleInv_wildcard battle _ _ hfin hw hhp1 hhp2).1
          | exact (battleInv_wildcard battle _ _ hfin hw hhp1 hhp2).2
      | some c1 =>
        cases hc2 : st.characters battle.player2Char with
        | none =>
          simp [game_executeTurn, hbs, hc1, hc2, hP] at h
          repeat' split at h
          all_goals injection h with h1 h2
          all_goals try exact Option.noConfusion h1
          all_goals subst h2
          all_goals refine ⟨⟨hc, battleMap_upd hb ?_⟩, updBattle_look ?_⟩
          all_goals first
            | exact (battleInv_wildcard battle _ _ hfin hw hhp1 hhp2).1
            | exact (battleInv_wildcard battle _ _ hfin hw hhp1 hhp2).2
        | some c2 =>
          have hCI1 := hc _ _ hc1
          have hCI2 := hc _ _ hc2
          simp [game_executeTurn, hbs, hc1, hc2, hP] at h
          repeat' split at h
          all_goals injection h with h1 h2
          all_goals try exact Option.noConfusion h1
          all_goals subst h2
          all_goals refine ⟨⟨?_, battleMap_upd hb ?_⟩, updBattle_look ?_⟩
          all_goals try first
            | exact hc
            | exact charMap_upd hc (runSkillPhase_attacker_inv _ _ _ _ hCI1)
            | exact charMap_upd hc (runSkillPhase_attacker_inv _ _ _ _ hCI2)
            | exact charMap_upd (charMap_upd hc
                (regenEnergy_inv _ (runSkillPhase_attacker_inv _ _ _ _ hCI1)))
                (regenEnergy_inv _ hCI2)
            | exact charMap_upd (charMap_upd hc (regenEnergy_inv _ hCI1))
                (regenEnergy_inv _ (runSkillPhase_attacker_inv _ _ _ _ hCI2))
          all_goals first
            | exact (battleInv_wildcard battle _ _ hfin hw hhp1 hhp2).1
            | exact (battleInv_wildcard battle _ _ hfin hw hhp1 hhp2).2
            | exact (battleInv_stun_of _ _
                (decDur1_runSkill_facts _ _ _ _ hCI1 hfin hw hhp1 hhp2)).1
            | exact (battleInv_stun_of _ _
                (decDur1_runSkill_facts _ _ _ _ hCI1 hfin hw hhp1 hhp2)).2
            | exact (battleInv_stun_of _ _
                (decDur2_runSkill_facts _ _ _ _ hCI2 hfin hw hhp1 hhp2)).1
            | exact (battleInv_stun_of _ _
                (decDur2_runSkill_facts _ _ _ _ hCI2 hfin hw hhp1 hhp2)).2
            | exact (damagePhase_inv _ _ _ _ _ _ _ _ _ _ _ _
                (by rw [runSkillPhase_isFinished]; exact hfin)
                (by rw [runSkillPhase_winner]; exact hw)).1
            | exact (damagePhase_inv _ _ _ _ _ _ _ _ _ _ _ _
                (by rw [runSkillPhase_isFinished]; exact hfin)
                (by rw [runSkillPhase_winner]; exact hw)).2

end

/-! ### Reachability (claims C5 and C6) -/

/-- Storage contents right after `game_constructor` (source lines 558-570):
    empty maps, zeroed counters, the deployer flagged admin, not paused. -/
def gameInit (deployer : String) : GameState :=
  { characters := fun _ => none, battles := fun _ => none,
    equips := fun _ => none, counters := fun _ => 0,
    flags := fun k => k = ("admin:" ++ deployer), paused := false }

/-- States reachable from `st0` by successful game operations. -/
def ReachableFrom (st0 st : GameState) : Prop :=
  Relation.ReflTransGen GStep st0 st

theorem gameInit_inv (deployer : String) : Inv (gameInit deployer) := by
  constructor <;> intro id x hx <;> exact Option.noConfusion hx

theorem gstep_inv {s t : GameState} (hInv : Inv s) (h : GStep s t) : Inv t := by
  cases h with
  | createCharacter ctx id cls nm st2 hop =>
    exact createCharacter_inv _ _ _ _ _ _ hInv hop
  | createBattle ctx bid c1 c2 ts st2 hop =>
    exact createBattle_inv _ _ _ _ _ _ _ hInv hop
  | executeTurn ctx bid aid stance sp slot st2 hop =>
    exact (executeTurn_inv _ _ _ _ _ _ _ _ hInv hop).1
  | decideWildcard ctx bid accept pid st2 hop =>
    exact decideWildcard_inv _ _ _ _ _ _ hInv hop
  | finalizeBattle ctx bid st2 hop =>
    exact finalizeBattle_inv _ _ _ _ hInv hop
  | upgradeCharacter ctx id ty st2 hop =>
    exact upgradeCharacter_inv _ _ _ _ _ hInv hop
  | grantXP ctx id amt st2 hop =>
    exact grantXP_inv _ _ _ _ _ hInv hop
  | healCharacter ctx id st2 hop =>
    exact healCharacter_inv _ _ _ _ hInv hop
  | createEquipment ctx eid own ty rar st2 hop =>
    exact createEquipment_inv _ _ _ _ _ _ _ hInv hop
  | equipItem ctx cid eid st2 hop =>
    exact equipItem_inv _ _ _ _ _ hInv hop
  | learnSkill ctx cid sk st2 hop =>
    exact learnSkill_inv _ _ _ _ _ hInv hop
  | equipSkill ctx cid sk slot st2 hop =>
    exact equipSkill_inv _ _ _ _ _ _ hInv hop

theorem reachable_inv {s t : GameState} (h0 : Inv s) (hr : ReachableFrom s t) :
    Inv t := by
  induction hr with
  | refl => exact h0
  | tail _ hbc ih => exact gstep_inv ih hbc

/-! ### A concrete reachable state (witnesses for C5 and C6) -/

def gctxA : GCtx := ⟨"alice", 5⟩

def gctxT : GCtx := ⟨"alice", 6⟩

def stG1 : GameState :=
  (game_createCharacter (gameInit "root") gctxA "A" 0 "Hero").state

def stG2 : GameState := (game_createCharacter stG1 gctxA "B" 0 "Foe").state

def stG3 : GameState := (game_createBattle stG2 gctxA "bat" "A" "B" 100).state

theorem reachG3 : ReachableFrom (gameInit "root") stG3 := by
  have s1 : GStep (gameInit "root") stG1 :=
    GStep.createCharacter (gameInit "root") gctxA "A" 0 "Hero" stG1 rfl
  have s2 : GStep stG1 stG2 :=
    GStep.createCharacter stG1 gctxA "B" 0 "Foe" stG2 rfl
  have s3 : GStep stG2 stG3 :=
    GStep.createBattle stG2 gctxA "bat" "A" "B" 100 stG3 rfl
  exact Relation.ReflTransGen.tail
    (Relation.ReflTransGen.tail (Relation.ReflTransGen.single s1) s2) s3

/-- The character stored under id A in stG3 (warrior created by alice at
    timestamp 5). -/
def charA : Character :=
  { owner := "alice", classU8 := 0, name := "Hero", level := 1, xp := 0,
    maxHp := 120, currentHp := 120, baseDamageMin := 8, baseDamageMax := 15,
    critChance := 15, dodgeChance := 0, defense := 0, totalWins := 0,
    totalLosses := 0, mmr := 1000, createdAt := 5, weaponId := "",
    armorId := "", accessoryId := "", skill1 := 0, skill2 := 0, skill3 := 0,
    learnedSkills := "", currentEnergy := 100 }

/-! ### Claim C5 -/

/-- C5: in every state reachable by successful game operations, a battle
    is finished exactly when its winner is in \x7b1,2\x7d, and an
    unfinished battle has winner 0; and after any successfully executed
    turn the executed battle is finished exactly when one side's HP is
    exactly 0. -/
theorem c5_finish_iff_hp_zero_and_winner_iff_finished
    (st0 st : GameState) (h0 : Inv st0) (hr : ReachableFrom st0 st)
    (ctx : GCtx) (bid aid : String) (stance : Nat) (sp : Bool) (slot : Nat)
    (herr : (game_executeTurn st ctx bid aid stance sp slot).err = none) :
    (∀ id b, st.battles id = some b →
      ((b.isFinished = true ↔ (b.winner = 1 ∨ b.winner = 2)) ∧
       (b.isFinished = false → b.winner = 0))) ∧
    (∀ b, (game_executeTurn st ctx bid aid stance sp slot).state.battles bid
        = some b →
      (b.isFinished = true ↔ (b.player1Hp = 0 ∨ b.player2Hp = 0))) := by
  have hInv := reachable_inv h0 hr
  have hexec : game_executeTurn st ctx bid aid stance sp slot
      = ⟨none, (game_executeTurn st ctx bid aid stance sp slot).state⟩ := by
    rw [← herr]
  refine ⟨fun id b hbb => ⟨(hInv.2 id b hbb).1,
    fun hf => ((hInv.2 id b hbb).2 hf).1⟩, ?_⟩
  exact (executeTurn_inv st ctx bid aid stance sp slot _ hInv hexec).2

theorem c5_witness :
    (game_executeTurn stG3 gctxT "bat" "A" 0 false 0).err = none ∧
    (∀ b, (game_executeTurn stG3 gctxT "bat" "A" 0 false 0).state.battles "bat"
        = some b →
      (b.isFinished = true ↔ (b.player1Hp = 0 ∨ b.player2Hp = 0))) :=
  ⟨by decide,
   (c5_finish_iff_hp_zero_and_winner_iff_finished (gameInit "root") stG3
     (gameInit_inv "root") reachG3 gctxT "bat" "A" 0 false 0 (by decide)).2⟩

/-! ### Claim C6 -/

/-- C6: in every state reachable by successful game operations, every
    stored character has current HP at most max HP and energy at most
    100. -/
theorem c6_char_hp_energy_bounds (st0 st : GameState) (h0 : Inv st0)
    (hr : ReachableFrom st0 st) :
    ∀ id c, st.characters id = some c →
      c.currentHp ≤ c.maxHp ∧ c.currentEnergy ≤ 100 := by
  intro id c hid
  obtain ⟨h1, h2, h3⟩ := (reachable_inv h0 hr).1 id c hid
  exact ⟨h2, h3⟩

theorem c6_witness :
    stG3.characters "A" = some charA ∧
    (charA.currentHp ≤ charA.maxHp ∧ charA.currentEnergy ≤ 100) :=
  ⟨by decide,
   c6_char_hp_energy_bounds (gameInit "root") stG3 (gameInit_inv "root")
     reachG3 "A" charA (by decide)⟩

/-! ### Claim C8 -/

def charC8 : Character :=
  { owner := "bob", classU8 := 0, name := "Hero", level := 1, xp := 0,
    maxHp := 120, currentHp := 120, baseDamageMin := 8, baseDamageMax := 15,
    critChance := 15, dodgeChance := 0, defense := 0, totalWins := 0,
    totalLosses := 0, mmr := 1000, createdAt := 0, weaponId := "",
    armorId := "", accessoryId := "", skill1 := 0, skill2 := 0, skill3 := 0,
    learnedSkills := "", currentEnergy := 100 }

def stC8 : GameState :=
  { characters := fun k => if k = "hero" then some charC8 else none,
    battles := fun _ => none, equips := fun _ => none,
    counters := fun _ => 0, flags := fun k => k = "admin:root",
    paused := false }

/-- The character produced by granting 600 XP to charC8: one single
    level-up is applied (threshold 200 deducted), leaving xp 400 which
    still exceeds the new level threshold 400 = 2 * 200. -/
def charC8After : Character :=
  { charC8 with
    level := 2, xp := 400, maxHp := 125, currentHp := 125,
    baseDamageMin := 9, baseDamageMax := 17 }

/-- C8 counterexample: grantXP with amount 600 on a fresh level 1
    character levels up exactly once, to level 2 with 400 XP left, and
    400 is not below the new threshold 2 * 200 - contradicting the
    claimed auto-levelling for each threshold crossed and the claimed
    final xp below the new threshold. -/
theorem c8_counterexample_single_level_per_call :
    (game_grantXP stC8 ⟨"root", 9⟩ "hero" 600).err = none ∧
    (game_grantXP stC8 ⟨"root", 9⟩ "hero" 600).state.characters "hero"
      = some charC8After ∧
    ¬ (charC8After.xp < charC8After.level * 200) := by decide

/-- C8 (amended): game_grantXP adds the amount to the character's xp
    and, in a single check, levels up AT MOST ONCE: if the accumulated
    xp reaches the current level's threshold level*200, the threshold is
    deducted, the level increments once and the flat stat bumps are
    applied once; the remaining xp may still be at or above the new
    level's threshold.  Otherwise the xp is simply accumulated. -/
theorem c8_amended_grantxp_levels_at_most_once (st : GameState) (ctx : GCtx)
    (id : String) (amt : Nat) (c : Character)
    (hadmin : st.flags ("admin:" ++ ctx.caller) = true)
    (hlook : st.characters id = some c)
    (hnw : c.xp + amt < U64) :
    (game_grantXP st ctx id amt).err = none ∧
    (c.level * 200 ≤ c.xp + amt →
      (game_grantXP st ctx id amt).state.characters id = some
        { c with
          level := (c.level + 1) % 65536,
          xp := c.xp + amt - c.level * 200,
          maxHp := c.maxHp + 5,
          currentHp := c.maxHp + 5,
          baseDamageMin := c.baseDamageMin + 1,
          baseDamageMax := c.baseDamageMax + 2 }) ∧
    (c.xp + amt < c.level * 200 →
      (game_grantXP st ctx id amt).state.characters id = some
        { c with xp := c.xp + amt }) := by
  have hu : u64add c.xp amt = c.xp + amt := Nat.mod_eq_of_lt hnw
  simp only [game_grantXP, hlook, hu, hadmin, not_true, if_false]
  refine ⟨?_, ?_, ?_⟩
  · trivial
  · intro hle
    rw [if_pos (by simpa using hle)]
    simp [updChar_same]
  · intro hlt
    rw [if_neg (by simpa using Nat.not_le_of_lt hlt)]
    simp [updChar_same]

theorem c8_amended_witness :
    (stC8.flags ("admin:" ++ "root") = true ∧
      stC8.characters "hero" = some charC8 ∧ charC8.xp + 600 < U64) ∧
    ((game_grantXP stC8 ⟨"root", 9⟩ "hero" 600).err = none ∧
     (charC8.level * 200 ≤ charC8.xp + 600 →
       (game_grantXP stC8 ⟨"root", 9⟩ "hero" 600).state.characters "hero"
         = some
           { charC8 with
             level := (charC8.level + 1) % 65536,
             xp := charC8.xp + 600 - charC8.level * 200,
             maxHp := charC8.maxHp + 5,
             currentHp := charC8.maxHp + 5,
             baseDamageMin := charC8.baseDamageMin + 1,
             baseDamageMax := charC8.baseDamageMax + 2 }) ∧
     (charC8.xp + 600 < charC8.level * 200 →
       (game_grantXP stC8 ⟨"root", 9⟩ "hero" 600).state.characters "hero"
         = some { charC8 with xp := charC8.xp + 600 })) :=
  ⟨⟨by decide, by decide, by decide⟩,
   c8_amended_grantxp_levels_at_most_once stC8 ⟨"root", 9⟩ "hero" 600 charC8
     (by decide) (by decide) (by decide)⟩

end MassaDungeons
